import Mathlib

/-!
# Verification of the chat2func type/schema bridge (ttumiel/autocoder)

Shallow embedding of the core of `src/chat2func/functions.py` and
`src/chat2func/schema.py`: JSON/Python values, the reachable type
expressions, the argument reconstructor (`instantiate_type`,
`schema_to_type`), the schema builder (`docstring_to_params`,
`type_to_schema`, `parse_function_params`, `parse_function_responses`)
and the invocation pipeline (`function_call`).

Modelling conventions:
* Python values are the inductive `PyVal`; machine floats appearing in the
  source's test data are decimal-exact, so `vfloat` carries an exact
  fraction (numerator and positive denominator, not necessarily reduced —
  `renderFloat` and the numeric conversions only depend on its value), and
  no rounding behaviour of the claims depends on float representation.
* Python exceptions are the `.error` branch of `Except String`; the string
  records the exception kind.  The only place the source catches a
  *specific* exception class is `except (ValueError, TypeError)` around the
  direct constructor call inside `instantiate_type`; that call is modelled
  as the total function `directCall`, which only signals those two kinds,
  so a single error channel is faithful.
* Recursive source functions are fuel-indexed (structural recursion on the
  fuel); fuel exhaustion returns the error "RecursionError", mirroring
  Python's recursion limit.  All claims are settled either for every fuel
  above the recursion actually used, or at `recursionLimit`, a stand-in
  for Python's default limit (its exact value is immaterial for these
  inputs).
* External libraries used by the source (`pydantic.TypeAdapter` schema
  generation, `json.loads`/`json.dumps`, `docstring_parser`) are modelled
  only to the extent the source exercises them; each model is marked in
  its doc comment.
* `inspect.signature` data is pre-extracted: a parameter is a `SigParam`
  (name, annotation, default), a parsed docstring parameter a `DocParam`.
  The source field name `annotation` is rendered `ann` here, and
  `default` is rendered `dflt`.
-/

namespace Chat2Func

/-- Python runtime values reachable in the bridge: JSON values
(`none`, booleans, ints, floats, strings, lists, string-keyed dicts)
together with the extra shapes reconstruction can produce
(tuples, sets, dict with non-string keys, class instances). -/
inductive PyVal where
  | none
  | vbool (b : Bool)
  | vint (n : Int)
  | vfloat (num : Int) (den : Nat)
  | vstr (s : String)
  | vlist (xs : List PyVal)
  | vtuple (xs : List PyVal)
  | vset (xs : List PyVal)
  | vdict (xs : List (PyVal × PyVal))
  | vinst (cls : String) (fields : List (String × PyVal))

mutual
/-- The type expressions (`py_type` arguments) reachable in the source:
builtin primitive classes, `typing` generic aliases, `Ellipsis` (as it
occurs inside `Tuple[t, ...]`), forward references and user classes.
A user class is embedded by its constructor signature (`classT`), exactly
what `inspect.signature` exposes of it; self reference happens through
`fwd`, never through an inline `classT`, as in Python. -/
inductive PyType where
  | anyT
  | boolT
  | intT
  | floatT
  | strT
  | noneT
  | ellipsisT
  | union (alts : List PyType)
  | listOf (elem : PyType)
  | tupleOf (targs : List PyType)
  | dictOf (key : PyType) (val : PyType)
  | setOf (elem : PyType)
  | fwd (ref : String)
  | classT (cls : ClassDef)

/-- An annotation slot: `inspect._empty`, a genuine type expression, a raw
string left behind when `eval` of a docstring type name failed, or the
literal `None` object (what `eval` failure on a missing type name yields
via `docstring_to_params`). -/
inductive Ann where
  | empty
  | ty (t : PyType)
  | raw (s : String)
  | noneV

/-- One signature parameter: name, annotation, default
(`Option.none` = `inspect._empty`; `some PyVal.none` = a literal `None`
default). -/
inductive SigParam where
  | mk (name : String) ( ann : Ann) (dflt : Option PyVal)

/-- A user class as the bridge sees it: name, whether
`dataclasses.is_dataclass` holds, and the constructor parameters. -/
inductive ClassDef where
  | mk (name : String) (isDataclass : Bool) (params : List SigParam)
end

def SigParam.name : SigParam → String
  | .mk n _ _ => n

def SigParam.ann : SigParam → Ann
  | .mk _ a _ => a

def SigParam.dflt : SigParam → Option PyVal
  | .mk _ _ d => d

def ClassDef.name : ClassDef → String
  | .mk n _ _ => n

def ClassDef.isDataclass : ClassDef → Bool
  | .mk _ d _ => d

def ClassDef.params : ClassDef → List SigParam
  | .mk _ _ ps => ps

/-- First-match association-list lookup with string keys, the observable
content of a Python `dict` read `d[k]` / `k in d`. -/
def alistFind (k : String) : List (String × PyVal) → Option PyVal
  | [] => Option.none
  | (k₂, v) :: rest => if k = k₂ then some v else alistFind k rest

/-- Replace the value at an existing key, append otherwise: the observable
content of a Python `d[k] = v` assignment. -/
def alistSet (k : String) (v : PyVal) : List (String × PyVal) → List (String × PyVal)
  | [] => [(k, v)]
  | (k₂, w) :: rest => if k = k₂ then (k, v) :: rest else (k₂, w) :: alistSet k v rest

/-- Generic first-match lookup for string-keyed association data
(used for the forward-reference scope and the callable registry). -/
def scopeFind (k : String) : List (String × α) → Option α
  | [] => Option.none
  | (k₂, v) :: rest => if k = k₂ then some v else scopeFind k rest

/-- Python truthiness, the meaning of `bool(value)`: it never raises. -/
def pyTruthy : PyVal → Bool
  | .none => false
  | .vbool b => b
  | .vint n => n ≠ 0
  | .vfloat n _ => n ≠ 0
  | .vstr s => s ≠ ""
  | .vlist xs => !xs.isEmpty
  | .vtuple xs => !xs.isEmpty
  | .vset xs => !xs.isEmpty
  | .vdict xs => !xs.isEmpty
  | .vinst _ _ => true

/-- Whitespace trimming on the character list (the observable content of
`str.strip()` as `int`/`float` apply it). -/
def trimChars (cs : List Char) : List Char :=
  ((cs.dropWhile Char.isWhitespace).reverse.dropWhile Char.isWhitespace).reverse

/-- Decimal digit run to a natural number; `Option.none` when empty or a
non-digit occurs. -/
def readDigits (cs : List Char) : Option Nat :=
  if cs ≠ [] ∧ cs.all Char.isDigit then
    some (cs.foldl (fun acc c => acc * 10 + (c.toNat - 48)) 0)
  else
    Option.none

/-- `int(s)` on a string: optional surrounding whitespace, optional sign,
decimal digits.  (The source's test data uses only this core grammar; the
underscore-separator and base prefixes of Python are outside it.) -/
def parseInt (s : String) : Option Int :=
  match trimChars s.toList with
  | '+' :: rest => (readDigits rest).map Int.ofNat
  | '-' :: rest => (readDigits rest).map (fun n => -(n : Int))
  | rest => (readDigits rest).map Int.ofNat

/-- Split at the first dot, keeping the remainder. -/
def splitDot : List Char → (List Char × Option (List Char))
  | [] => ([], Option.none)
  | '.' :: rest => ([], some rest)
  | c :: rest =>
      let r := splitDot rest
      (c :: r.1, r.2)

/-- `float(s)` on a string: optional whitespace and sign, digits with an
optional fractional part (`"1"`, `"1.5"`, `".5"`, `"1."`), delivered as an
exact numerator/denominator pair.  Exponent and `inf`/`nan` spellings are
outside the grammar the source exercises. -/
def parseFloat (s : String) : Option (Int × Nat) :=
  let core : List Char → Option (Int × Nat) := fun cs =>
    match splitDot cs with
    | (ip, Option.none) => (readDigits ip).map (fun n => ((n : Int), 1))
    | (ip, some fp) =>
        if ip.isEmpty ∧ fp.isEmpty then Option.none
        else if fp.any (fun c => c = '.') then Option.none
        else if ip.all Char.isDigit ∧ fp.all Char.isDigit then
          let ipn : Nat := ip.foldl (fun acc c => acc * 10 + (c.toNat - 48)) 0
          let fpn : Nat := fp.foldl (fun acc c => acc * 10 + (c.toNat - 48)) 0
          some (((ipn * 10 ^ fp.length + fpn : Nat) : Int), 10 ^ fp.length)
        else Option.none
  match trimChars s.toList with
  | '+' :: rest => core rest
  | '-' :: rest => (core rest).map (fun nd => (-nd.1, nd.2))
  | rest => core rest

/-- Decimal expansion of `rem / den` with `rem < den`, as far as the fuel
allows; exact for every value arising in the claims. -/
def fracDigits : Nat → Nat → Nat → String
  | 0, _, _ => ""
  | fuel + 1, rem, den =>
      if rem = 0 then ""
      else toString (rem * 10 / den) ++ fracDigits fuel (rem * 10 % den) den

/-- Rendering of a nonnegative decimal-exact float, `repr`-style:
an integer value prints with a trailing `.0` as Python does. -/
def renderFloatNN (num den : Nat) : String :=
  if num % den = 0 then toString (num / den) ++ ".0"
  else toString (num / den) ++ "." ++ fracDigits 17 (num % den) den

/-- `repr(x)` for a float `x`, the form `json.dumps` and `str` emit. -/
def renderFloat (num : Int) (den : Nat) : String :=
  if num < 0 then "-" ++ renderFloatNN (-num).toNat den else renderFloatNN num.toNat den

/-- `int(value)`: identity on ints, bools map to 0/1, floats truncate
toward zero, strings parse; anything else raises
(`Option.none` = `ValueError`/`TypeError`). -/
def pyInt : PyVal → Option Int
  | .vint n => some n
  | .vbool b => some (if b then 1 else 0)
  | .vfloat n d => some (n.tdiv (d : Int))
  | .vstr s => parseInt s
  | _ => Option.none

/-- `float(value)`. -/
def pyFloat : PyVal → Option (Int × Nat)
  | .vfloat n d => some (n, d)
  | .vint n => some (n, 1)
  | .vbool b => some ((if b then 1 else 0), 1)
  | .vstr s => parseFloat s
  | _ => Option.none

/-- `repr(value)`, fuel-recursive through containers.  Strings are quoted
without escape processing and instances print dataclass-style, the only
forms the source's data reaches. -/
def pyRepr : Nat → PyVal → String
  | 0, _ => ""
  | _ + 1, .none => "None"
  | _ + 1, .vbool b => if b then "True" else "False"
  | _ + 1, .vint n => toString n
  | _ + 1, .vfloat n d => renderFloat n d
  | _ + 1, .vstr s => "'" ++ s ++ "'"
  | fuel + 1, .vlist xs => "[" ++ String.intercalate ", " (xs.map (pyRepr fuel)) ++ "]"
  | fuel + 1, .vtuple xs =>
      match xs with
      | [x] => "(" ++ pyRepr fuel x ++ ",)"
      | _ => "(" ++ String.intercalate ", " (xs.map (pyRepr fuel)) ++ ")"
  | fuel + 1, .vset xs =>
      if xs.isEmpty then "set()"
      else "\x7b" ++ String.intercalate ", " (xs.map (pyRepr fuel)) ++ "\x7d"
  | fuel + 1, .vdict xs =>
      "\x7b" ++ String.intercalate ", "
        (xs.map (fun kv => pyRepr fuel kv.1 ++ ": " ++ pyRepr fuel kv.2)) ++ "\x7d"
  | fuel + 1, .vinst cls fields =>
      cls ++ "(" ++ String.intercalate ", "
        (fields.map (fun kv => kv.1 ++ "=" ++ pyRepr fuel kv.2)) ++ ")"

/-- `str(value)`. -/
def pyStr (fuel : Nat) : PyVal → String
  | .vstr s => s
  | v => pyRepr fuel v

/-- `isinstance(value, t)` for a `t` that is a class object; Python's
`bool` is a subclass of `int`, so a bool is an instance of `int`. -/
def pyIsinstance (v : PyVal) : PyType → Bool
  | .boolT => match v with | .vbool _ => true | _ => false
  | .intT => match v with | .vint _ => true | .vbool _ => true | _ => false
  | .floatT => match v with | .vfloat _ _ => true | _ => false
  | .strT => match v with | .vstr _ => true | _ => false
  | .noneT => match v with | .none => true | _ => false
  | .classT c => match v with | .vinst n _ => n = c.name | _ => false
  | _ => false

/-- `isinstance(t, type)`: which of the reachable type expressions are
actual class objects (typing aliases, `ForwardRef` and `Ellipsis` are
not). -/
def isTypeObj : PyType → Bool
  | .boolT => true
  | .intT => true
  | .floatT => true
  | .strT => true
  | .noneT => true
  | .classT _ => true
  | _ => false

/-- The claim's stricter reading of an exact match: the value's runtime
type is the named class itself (a bool is *not* an exact int). -/
def exactTypeMatch (v : PyVal) : PyType → Bool
  | .boolT => match v with | .vbool _ => true | _ => false
  | .intT => match v with | .vint _ => true | _ => false
  | .floatT => match v with | .vfloat _ _ => true | _ => false
  | .strT => match v with | .vstr _ => true | _ => false
  | .noneT => match v with | .none => true | _ => false
  | .classT c => match v with | .vinst n _ => n = c.name | _ => false
  | _ => false

/-- Python iteration order of a value, as consumed by the `list`, `tuple`,
`set` comprehensions and `zip` in `instantiate_type`: sequences and sets
yield elements, strings yield one-character strings, dicts yield keys;
anything else raises `TypeError`. -/
def pyIter : PyVal → Option (List PyVal)
  | .vlist xs => some xs
  | .vtuple xs => some xs
  | .vset xs => some xs
  | .vstr s => some (s.toList.map (fun c => .vstr (String.mk [c])))
  | .vdict xs => some (xs.map Prod.fst)
  | _ => Option.none

end Chat2Func

namespace Chat2Func

/-- Effectful left-to-right map in the `Except` monad, short-circuiting on
the first error, exactly like a Python comprehension. -/
def mapME (g : α → Except String β) : List α → Except String (List β)
  | [] => .ok []
  | x :: xs => do
      let y ← g x
      let ys ← mapME g xs
      .ok (y :: ys)

/-- First successful result of a list of attempts, the meaning of the
`for arg in args: try ... except: pass` loop over union alternatives. -/
def firstOkList : List (Except String PyVal) → Option PyVal
  | [] => Option.none
  | .ok r :: _ => some r
  | .error _ :: rest => firstOkList rest

/-- Python call binding against a signature: positional arguments fill the
leading parameters, keyword arguments and then declared defaults fill the
rest; `Option.none` is the `TypeError` Python raises (too many positional
arguments, a parameter bound twice, or a missing required parameter).
The result is the full name-to-value assignment in parameter order
(`BoundArguments.args` after `apply_defaults`, for the keyword-only-free
signatures the source handles). -/
def bindGo : List SigParam → List PyVal → List (String × PyVal) → Option (List (String × PyVal))
  | [], [], _ => some []
  | [], _ :: _, _ => Option.none
  | p :: rest, v :: pos, kw =>
      if (scopeFind p.name kw).isSome then Option.none
      else (bindGo rest pos kw).map (fun asg => (p.name, v) :: asg)
  | p :: rest, [], kw =>
      match scopeFind p.name kw with
      | some v => (bindGo rest [] kw).map (fun asg => (p.name, v) :: asg)
      | Option.none =>
          match p.dflt with
          | some d => (bindGo rest [] kw).map (fun asg => (p.name, d) :: asg)
          | Option.none => Option.none

/-- `signature.bind` with `apply_defaults`: also rejects a keyword that
names no parameter (Python's unexpected-keyword `TypeError`). -/
def bindParams (ps : List SigParam) (pos : List PyVal) (kw : List (String × PyVal)) :
    Option (List (String × PyVal)) :=
  if kw.all (fun kv => ps.any (fun p => p.name = kv.1)) then bindGo ps pos kw
  else Option.none

/-- A JSON object view of a dict value: every key must be a string
(Python raises `TypeError` from `f(**d)` otherwise). -/
def strKeyed : List (PyVal × PyVal) → Option (List (String × PyVal))
  | [] => some []
  | (.vstr k, v) :: rest => (strKeyed rest).map (fun r => (k, v) :: r)
  | _ => Option.none

/-- One in-place overwrite of the arguments dict, as recorded by the
per-parameter loop of `schema_to_type`: apply the update if the iteration
produced one, leave the dict alone otherwise. -/
def applyUpd (acc : List (String × PyVal)) : Option (String × PyVal) → List (String × PyVal)
  | some nv => alistSet nv.1 nv.2 acc
  | Option.none => acc

mutual
/-- `instantiate_type(py_type, value, scope)` of
`src/chat2func/functions.py` lines 214-280 (textually identical in
`src/chat2func/schema.py` lines 323-389) on a resolved type expression.
Branch order follows the source: `Any` passes through, `NoneType`
accepts `None`, a `ForwardRef` is evaluated in the scope (a `NameError`
propagates), then the direct constructor call is attempted with
`ValueError`/`TypeError` suppressed (for the primitive classes this call
*is* the conversion; typing aliases and `Ellipsis` refuse the call), then
`get_origin` dispatch for `Union`/`list`/`tuple`/`dict`/`set`, then the
user-class branch via `schema_to_type`, and finally
`ValueError("Couldn't instantiate type")`. -/
def instantiate_type : Nat → List (String × ClassDef) → PyType → PyVal → Except String PyVal
  | 0, _, _, _ => .error "RecursionError"
  | fuel + 1, scope, t, v =>
    match t with
    | .anyT => .ok v
    | .noneT =>
        match v with
        | .none => .ok .none
        | _ => .error "ValueError"
    | .fwd n =>
        match scopeFind n scope with
        | Option.none => .error "NameError"
        | some c => classCore fuel scope c v
    | .classT c => classCore fuel scope c v
    | .boolT => .ok (.vbool (pyTruthy v))
    | .intT =>
        match pyInt v with
        | some n => .ok (.vint n)
        | Option.none => .error "ValueError"
    | .floatT =>
        match pyFloat v with
        | some nd => .ok (.vfloat nd.1 nd.2)
        | Option.none => .error "ValueError"
    | .strT => .ok (.vstr (pyStr fuel v))
    | .ellipsisT => .error "ValueError"
    | .union alts =>
        if alts.any (fun a => isTypeObj a && pyIsinstance v a) then .ok v
        else
          match firstOkList (alts.map (fun a => instantiate_type fuel scope a v)) with
          | some r => .ok r
          | Option.none => .error "ValueError"
    | .listOf te =>
        match pyIter v with
        | some xs => (mapME (instantiate_type fuel scope te) xs).map .vlist
        | Option.none => .error "TypeError"
    | .tupleOf targs =>
        match pyIter v with
        | some xs =>
            let pairs :=
              match targs with
              | [t₁] => (List.replicate xs.length t₁).zip xs
              | [t₁, .ellipsisT] => (List.replicate xs.length t₁).zip xs
              | _ => targs.zip xs
            (mapME (fun tv => instantiate_type fuel scope tv.1 tv.2) pairs).map .vtuple
        | Option.none => .error "TypeError"
    | .dictOf kt vt =>
        match v with
        | .vdict xs =>
            (mapME (fun kv => do
              let k ← instantiate_type fuel scope kt kv.1
              let w ← instantiate_type fuel scope vt kv.2
              .ok (k, w)) xs).map .vdict
        | _ => .error "AttributeError"
    | .setOf te =>
        match pyIter v with
        | some xs => (mapME (instantiate_type fuel scope te) xs).map .vset
        | Option.none => .error "TypeError"

/-- The fate of a user class inside `instantiate_type`: first the bare
constructor call `py_type(value)` (one positional argument, no type
checking — it succeeds whenever the signature can bind it), and only if
that raises does the `schema_to_type` field-by-field branch run
(the source passes `strict=True` there by omission). -/
def classCore : Nat → List (String × ClassDef) → ClassDef → PyVal → Except String PyVal
  | 0, _, _, _ => .error "RecursionError"
  | fuel + 1, scope, c, v =>
      match bindParams c.params [v] [] with
      | some asg => .ok (.vinst c.name asg)
      | Option.none => constructFromSchema fuel scope c v true

/-- `schema_to_type(cls, value, scope, strict)` followed by
`cls(*args, **kwargs)`: the raw value must be a JSON object
(a string-keyed dict, the only form JSON delivers). -/
def constructFromSchema : Nat → List (String × ClassDef) → ClassDef → PyVal → Bool → Except String PyVal
  | 0, _, _, _, _ => .error "RecursionError"
  | fuel + 1, scope, c, v, strict =>
      match v with
      | .vdict fields =>
          match strKeyed fields with
          | some sfields => do
              let r ← schema_to_type fuel scope c.params sfields strict
              .ok (.vinst c.name r.2)
          | Option.none => .error "TypeError"
      | _ => .error "TypeError"

/-- The body of `schema_to_type`'s per-parameter loop
(`src/chat2func/functions.py` lines 293-314): skip a parameter that is
absent from the arguments or carries no usable annotation; otherwise
resolve a `ForwardRef`, send classes through the nested
`schema_to_type` + constructor branch and everything else through
`instantiate_type`; an exception aborts in strict mode and is logged and
swallowed otherwise.  Returns the overwrite this iteration performs on
the arguments dict, if any. -/
def paramUpdate : Nat → List (String × ClassDef) → Bool → List (String × PyVal) → SigParam →
    Except String (Option (String × PyVal))
  | 0, _, _, _, _ => .error "RecursionError"
  | fuel + 1, scope, strict, args0, p =>
      match alistFind p.name args0 with
      | Option.none => .ok Option.none
      | some v₀ =>
          match p.ann with
          | .empty => .ok Option.none
          | .ty .anyT => .ok Option.none
          | a =>
              let attempt : Except String PyVal :=
                match a with
                | .ty (.fwd n) =>
                    match scopeFind n scope with
                    | Option.none => .error "NameError"
                    | some c => constructFromSchema fuel scope c v₀ strict
                | .ty (.classT c) => constructFromSchema fuel scope c v₀ strict
                | .ty t => instantiate_type fuel scope t v₀
                | _ => .error "ValueError"
              match attempt with
              | .ok r => .ok (some (p.name, r))
              | .error e => if strict then .error e else .ok Option.none

/-- `schema_to_type(function, arguments, scope, strict)` of
`src/chat2func/functions.py` lines 283-318, for a callable given by its
signature parameters.  The source mutates the caller's `arguments` dict in
place; the model returns that mutated dict as the first component,
together with the full bound assignment (`bound_arguments`, after
`apply_defaults`).  Reads go to the original dict — parameter names are
unique in Python, so no iteration reads a key an earlier iteration
wrote. -/
def schema_to_type : Nat → List (String × ClassDef) → List SigParam → List (String × PyVal) →
    Bool → Except String (List (String × PyVal) × List (String × PyVal))
  | 0, _, _, _, _ => .error "RecursionError"
  | fuel + 1, scope, ps, args, strict => do
      let updates ← mapME (paramUpdate fuel scope strict args) ps
      let final := updates.foldl applyUpd args
      match bindParams ps [] final with
      | some asg => .ok (final, asg)
      | Option.none => .error "TypeError"
end

end Chat2Func

namespace Chat2Func

/-- One parameter as `docstring_parser` reports it: name, description
text, declared type name (absent when the docstring gives none),
whether the docstring marks it optional, and the literal default text the
docstring carries. -/
structure DocParam where
  arg_name : String
  description : Option String
  type_name : Option String
  is_optional : Bool
  dflt : Option String

/-- The documented return slot (`docstring.returns`). -/
structure DocReturns where
  description : Option String
  type_name : Option String

/-- The `Parameter` dataclass of `src/chat2func/schema.py` lines 19-24. -/
structure Parameter where
  name : String
  description : Option String
  dflt : Option String
  pann : Ann

/-- Model of `eval(type_name)` in the schema module's namespace: the
builtin primitive type names resolve, anything else raises (the claims
only exercise these names; other resolvable spellings would extend this
table without changing any statement). -/
def resolveName : String → Option PyType
  | "int" => some .intT
  | "float" => some .floatT
  | "str" => some .strT
  | "bool" => some .boolT
  | _ => Option.none

/-- `docstring_to_params(docstring)` of `src/chat2func/schema.py` lines
32-41 (identical in `functions.py` lines 42-51): a docstring default
counts only when the parameter is marked optional; `eval` of the type
name falls back to the raw string on failure (and to the `None` object
when there is no type name, since `eval(None)` raises `TypeError`). -/
def docstring_to_params (dps : List DocParam) : List (String × Parameter) :=
  dps.map (fun p =>
    let d := if p.is_optional then p.dflt else Option.none
    let a : Ann :=
      match p.type_name with
      | Option.none => Ann.noneV
      | some s =>
          match resolveName s with
          | some t => Ann.ty t
          | Option.none => Ann.raw s
    (p.arg_name, ⟨p.arg_name, p.description, d, a⟩))

/-- A JSON-schema dictionary with string keys. -/
def jdict (xs : List (String × PyVal)) : PyVal :=
  .vdict (xs.map (fun kv => (.vstr kv.1, kv.2)))

/-- Set a string key in a schema dictionary (replace or append),
a Python `d[k] = v`. -/
def dsetGo : List (PyVal × PyVal) → String → PyVal → List (PyVal × PyVal)
  | [], k, v => [(.vstr k, v)]
  | (.vstr k₂, w) :: rest, k, v =>
      if k = k₂ then (.vstr k, v) :: rest else (.vstr k₂, w) :: dsetGo rest k v
  | p :: rest, k, v => p :: dsetGo rest k v

def dset (d : PyVal) (k : String) (v : PyVal) : PyVal :=
  match d with
  | .vdict xs => .vdict (dsetGo xs k v)
  | _ => d

/-- Read a string key of a schema dictionary. -/
def dgetGo : List (PyVal × PyVal) → String → Option PyVal
  | [], _ => Option.none
  | (.vstr k₂, w) :: rest, k => if k = k₂ then some w else dgetGo rest k
  | _ :: rest, k => dgetGo rest k

def dget (d : PyVal) (k : String) : Option PyVal :=
  match d with
  | .vdict xs => dgetGo xs k
  | _ => Option.none

/-- `isinstance(default, annotation)` as the schema builder issues it:
defined for class-object annotations, a `TypeError` for subscripted
generics, raw strings and the `None` object. -/
def isinstanceAnn (v : PyVal) : Ann → Except String Bool
  | .ty t => if isTypeObj t then .ok (pyIsinstance v t) else .error "TypeError"
  | _ => .error "TypeError"

mutual
/-- Model of `pydantic.TypeAdapter(py_type).json_schema(...)` with the
title-suppressing `SchemaGenerator`, for the type expressions the claims
reach: primitives map to their JSON type names, `Any` to the empty
schema, containers and unions to the standard `items` /
`additionalProperties` / `anyOf` forms; a raw string is resolved as a
forward reference in the surrounding namespace and raises
`PydanticUndefinedAnnotation` when unresolvable; a bare `ForwardRef` and
a plain (non-pydantic) class raise.  (Dataclasses nested inside generics
would produce pydantic `$defs` documents; no claim reaches them and they
are reported as a schema-generation error here.) -/
def typeAdapterSchema : Nat → Ann → Except String PyVal
  | 0, _ => .error "RecursionError"
  | _ + 1, .noneV => .ok (jdict [("type", .vstr "null")])
  | _ + 1, .empty => .error "PydanticSchemaGenerationError"
  | fuel + 1, .raw s =>
      match resolveName s with
      | some t => typeAdapterSchema fuel (.ty t)
      | Option.none => .error "PydanticUndefinedAnnotation"
  | fuel + 1, .ty t =>
      match t with
      | .intT => .ok (jdict [("type", .vstr "integer")])
      | .floatT => .ok (jdict [("type", .vstr "number")])
      | .strT => .ok (jdict [("type", .vstr "string")])
      | .boolT => .ok (jdict [("type", .vstr "boolean")])
      | .noneT => .ok (jdict [("type", .vstr "null")])
      | .anyT => .ok (jdict [])
      | .listOf te => do
          let sub ← typeAdapterSchema fuel (.ty te)
          .ok (jdict [("items", sub), ("type", .vstr "array")])
      | .setOf te => do
          let sub ← typeAdapterSchema fuel (.ty te)
          .ok (jdict [("items", sub), ("type", .vstr "array"), ("uniqueItems", .vbool true)])
      | .dictOf _ vt => do
          let sub ← typeAdapterSchema fuel (.ty vt)
          .ok (jdict [("additionalProperties", sub), ("type", .vstr "object")])
      | .union alts => do
          let subs ← mapME (fun a => typeAdapterSchema fuel (.ty a)) alts
          .ok (jdict [("anyOf", .vlist subs)])
      | .tupleOf targs => do
          let subs ← mapME (fun a => typeAdapterSchema fuel (.ty a)) targs
          .ok (jdict [("maxItems", .vint targs.length), ("minItems", .vint targs.length),
                      ("prefixItems", .vlist subs), ("type", .vstr "array")])
      | .fwd _ => .error "PydanticUndefinedAnnotation"
      | .ellipsisT => .error "PydanticUserError"
      | .classT _ => .error "PydanticSchemaGenerationError"

/-- `type_to_schema(py_type)` of `src/chat2func/schema.py` lines 48-63:
`inspect._empty` gives the empty schema; a dataclass goes through
`parse_function_params`; otherwise `TypeAdapter` is tried, and on *any*
exception a non-builtin class or function falls back to
`parse_function_params` while everything else re-raises. -/
def type_to_schema : Nat → Ann → Except String PyVal
  | 0, _ => .error "RecursionError"
  | fuel + 1, a =>
      match a with
      | .empty => .ok (jdict [])
      | .ty (.classT c) =>
          if c.isDataclass then parse_function_params fuel c.params [] true
          else
            match typeAdapterSchema fuel (.ty (.classT c)) with
            | .ok sch => .ok sch
            | .error _ => parse_function_params fuel c.params [] true
      | _ => typeAdapterSchema fuel a

/-- One iteration of the property loop of `parse_function_params`
(`src/chat2func/schema.py` lines 74-105): merge the signature annotation
with the docstring fallback, emit the fragment via `type_to_schema`,
attach the documented description, and attach the literal schema
`default` if and only if `isinstance(default, annotation)` holds — a
mismatch only logs a warning, but the `isinstance` call itself raises on
non-class annotations.  Returns the fragment and whether the parameter is
required (no signature default). -/
def paramFrag : Nat → List (String × Parameter) → Bool → SigParam →
    Except String (String × PyVal)
  | 0, _, _, _ => .error "RecursionError"
  | fuel + 1, docps, descriptions, p => do
      let doc_param : Parameter :=
        (scopeFind p.name docps).getD ⟨p.name, Option.none, Option.none, .empty⟩
      let a : Ann :=
        match p.ann with
        | .empty => doc_param.pann
        | sa => sa
      let frag ← type_to_schema fuel a
      let frag :=
        match descriptions, doc_param.description with
        | true, some desc =>
            if desc.isEmpty then frag else dset frag "description" (.vstr desc)
        | _, _ => frag
      match p.dflt, a with
      | some _, .empty => .ok (p.name, frag)
      | some d, _ =>
          (match isinstanceAnn d a with
          | .error e => .error e
          | .ok true => .ok (p.name, dset frag "default" d)
          | .ok false => .ok (p.name, frag))
      | Option.none, _ => .ok (p.name, frag)

/-- `parse_function_params(function, descriptions)` of
`src/chat2func/schema.py` lines 66-107, for a callable given by its
signature parameters and parsed docstring parameters:
`{"type": "object", "properties": {...}}` with a `"required"` key created
only when some parameter lacks a default. -/
def parse_function_params : Nat → List SigParam → List DocParam → Bool → Except String PyVal
  | 0, _, _, _ => .error "RecursionError"
  | fuel + 1, params, docParams, descriptions => do
      let docps := docstring_to_params docParams
      let frags ← mapME (paramFrag fuel docps descriptions) params
      let required := (params.filter (fun p => p.dflt.isNone)).map SigParam.name
      let base := [("type", PyVal.vstr "object"), ("properties", jdict frags)]
      .ok (jdict (if required.isEmpty then base
                  else base ++ [("required", .vlist (required.map .vstr))]))
end

end Chat2Func

namespace Chat2Func

/-- A callable as the invocation pipeline sees it: its signature, parsed
documentation, whether it is a class, and — for plain functions — the
behaviour of its body on the bound name-to-value assignment (an `.error`
is an exception the body raises).  A class callable constructs an
instance instead of running a body. -/
structure Callable where
  name : String
  params : List SigParam
  isClass : Bool
  docParams : List DocParam
  docShort : Option String
  docReturns : Option DocReturns
  returnAnn : Ann
  body : List (String × PyVal) → Except String PyVal

/-- `parse_function_responses(function, descriptions)` of
`src/chat2func/schema.py` lines 110-143: the return annotation, falling
back to the *raw* documented type name, is sent through `type_to_schema`
with every exception silently degrading to "no content schema"; classes
never get a return schema.  A description is attached whenever there is a
content schema or (with `descriptions`) documented return text; the
response section is omitted entirely when both are absent.  An empty
(`{}`) content schema is falsy in Python and counts as absent. -/
def parse_function_responses (fuel : Nat) (f : Callable) (descriptions : Bool) : Option PyVal :=
  let rt : Ann :=
    if f.isClass then .empty
    else
      match f.returnAnn with
      | .empty =>
          match f.docReturns with
          | some r =>
              (match r.type_name with
              | some s => .raw s
              | Option.none => .empty)
          | Option.none => .empty
      | a => a
  let retSch : Option PyVal :=
    match type_to_schema fuel rt with
    | .ok sch => if pyTruthy sch then some sch else Option.none
    | .error _ => Option.none
  let desc : Option String :=
    match f.docReturns with
    | some r =>
        (match r.description with
        | some d => if d.isEmpty then Option.none else some d
        | Option.none => Option.none)
    | Option.none => Option.none
  let contentPart : List (String × PyVal) :=
    match retSch with
    | some sch => [("content", jdict [("application/json", jdict [("schema", sch)])])]
    | Option.none => []
  let descPart : List (String × PyVal) :=
    if (desc.isSome ∧ descriptions) ∨ retSch.isSome then
      [("description", .vstr (if ¬descriptions then "OK" else desc.getD "OK"))]
    else []
  let response := contentPart ++ descPart
  if response.isEmpty then Option.none
  else some (jdict [("200", jdict response)])

end Chat2Func

namespace Chat2Func

/-- The closed error surface of the pipeline: every `FunctionCallError`
message starts with exactly one stage tag.  `schemaMismatch` is produced
only by the validation stage (spec §4.5 step 3). -/
inductive FCErr where
  | notFound (msg : String)
  | invalidJson (msg : String)
  | schemaMismatch (msg : String)
  | signatureMismatch (msg : String)
  | invocationFailed (msg : String)

/-- The `arguments` argument of `function_call`: either raw JSON text —
represented by the outcome of `json.loads` on it, `Option.none` when the
text is unparseable — or an already-decoded Python object
(the `from_json=False` path). -/
inductive JsonInput where
  | jsonText (outcome : Option PyVal)
  | pyObject (v : PyVal)

/-- A pipeline result: serialized JSON text or the raw value
(`return_json=False`). -/
inductive CallResult where
  | asJson (s : String)
  | asValue (v : PyVal)

/-- Option-monad effectful map (a serializer walking a list). -/
def mapOME (g : α → Option β) : List α → Option (List β)
  | [] => some []
  | x :: xs => do
      let y ← g x
      let ys ← mapOME g xs
      some (y :: ys)

/-- Model of `json.dumps`: `Option.none` is the `TypeError` on a value
JSON cannot carry (sets, class instances, non-primitive dict keys).
Strings are emitted without escape processing — none of the claims' data
contains characters needing escapes.  Dict keys of primitive type are
coerced to strings as Python does. -/
def json_dumps : Nat → PyVal → Option String
  | 0, _ => Option.none
  | _ + 1, .none => some "null"
  | _ + 1, .vbool b => some (if b then "true" else "false")
  | _ + 1, .vint n => some (toString n)
  | _ + 1, .vfloat n d => some (renderFloat n d)
  | _ + 1, .vstr s => some ("\"" ++ s ++ "\"")
  | fuel + 1, .vlist xs =>
      (mapOME (json_dumps fuel) xs).map (fun ys => "[" ++ String.intercalate ", " ys ++ "]")
  | fuel + 1, .vtuple xs =>
      (mapOME (json_dumps fuel) xs).map (fun ys => "[" ++ String.intercalate ", " ys ++ "]")
  | fuel + 1, .vdict xs =>
      (mapOME (fun kv => do
        let k ← match kv.1 with
          | .vstr s => some s
          | .vint n => some (toString n)
          | .vfloat n d => some (renderFloat n d)
          | .vbool b => some (if b then "true" else "false")
          | .none => some "null"
          | _ => Option.none
        let w ← json_dumps fuel kv.2
        some ("\"" ++ k ++ "\": " ++ w)) xs).map
        (fun ys => "\x7b" ++ String.intercalate ", " ys ++ "\x7d")
  | _ + 1, .vset _ => Option.none
  | _ + 1, .vinst _ _ => Option.none

/-- Call-time argument validation performed by the `pydantic`
`validate_call` wrapper, in lax mode, approximated for the annotation
shapes the claims reach; a failure raises inside the call stage.
(The wrapper's construction at stage 3 is modelled as non-raising.) -/
def pydanticAccepts : Nat → PyType → PyVal → Bool
  | 0, _, _ => false
  | _ + 1, .anyT, _ => true
  | _ + 1, .intT, v =>
      (match v with
       | .vint _ => true
       | .vstr s => (parseInt s).isSome
       | .vfloat n d => n.tmod (d : Int) = 0
       | _ => false)
  | _ + 1, .floatT, v =>
      (match v with
       | .vfloat _ _ => true
       | .vint _ => true
       | .vstr s => (parseFloat s).isSome
       | _ => false)
  | _ + 1, .strT, v => (match v with | .vstr _ => true | _ => false)
  | _ + 1, .boolT, v =>
      (match v with | .vbool _ => true | .vint n => n = 0 ∨ n = 1 | _ => false)
  | _ + 1, .noneT, v => (match v with | .none => true | _ => false)
  | fuel + 1, .union alts, v => alts.any (fun a => pydanticAccepts fuel a v)
  | fuel + 1, .listOf te, v =>
      (match v with
       | .vlist xs => xs.all (pydanticAccepts fuel te)
       | .vtuple xs => xs.all (pydanticAccepts fuel te)
       | _ => false)
  | fuel + 1, .setOf te, v =>
      (match v with
       | .vlist xs => xs.all (pydanticAccepts fuel te)
       | .vset xs => xs.all (pydanticAccepts fuel te)
       | _ => false)
  | fuel + 1, .dictOf kt vt, v =>
      (match v with
       | .vdict xs => xs.all (fun kv => pydanticAccepts fuel kt kv.1 && pydanticAccepts fuel vt kv.2)
       | _ => false)
  | fuel + 1, .tupleOf ts, v =>
      (match v with
       | .vlist xs => ts.length = xs.length && (ts.zip xs).all (fun p => pydanticAccepts fuel p.1 p.2)
       | .vtuple xs => ts.length = xs.length && (ts.zip xs).all (fun p => pydanticAccepts fuel p.1 p.2)
       | _ => false)
  | _ + 1, .classT c, v => (match v with | .vinst n _ => n = c.name | _ => false)
  | _ + 1, .fwd _, _ => true
  | _ + 1, .ellipsisT, _ => false

/-- Whether the pydantic wrapper accepts the whole bound assignment. -/
def pydanticArgsOk (fuel : Nat) (ps : List SigParam) (bound : List (String × PyVal)) : Bool :=
  bound.all (fun nv =>
    match ps.find? (fun p => p.name = nv.1) with
    | some p =>
        (match p.ann with
         | .ty t => pydanticAccepts fuel t nv.2
         | _ => true)
    | Option.none => true)

/-- Stage 5: run the callable on the bound assignment.  A class callable
constructs an instance; a validated plain function first runs the
pydantic check, whose failure is an exception raised inside the call. -/
def callCallable (fuel : Nat) (f : Callable) (validated : Bool)
    (bound : List (String × PyVal)) : Except String PyVal :=
  if f.isClass then .ok (.vinst f.name bound)
  else if validated && !pydanticArgsOk fuel f.params bound then .error "ValidationError"
  else f.body bound

/-- What can escape `function_call`: a `FunctionCallError` raised by one
of its guarded stages, or an exception of another type escaping an
unguarded expression (pydantic's wrap-time errors). -/
inductive PyRaise where
  | fcError (e : FCErr)
  | escaped (e : String)

/-- The first error in a list of optional errors. -/
def firstSomeList : List (Option String) → Option String
  | [] => Option.none
  | some e :: _ => some e
  | Option.none :: rest => firstSomeList rest

/-- Whether `pydantic.validate_call` can build a validation schema for a
type expression at wrap time, and the exception it raises when it
cannot: an arbitrary (non-dataclass) class has no pydantic core schema
(`PydanticSchemaGenerationError`), an unresolvable reference raises
`PydanticUndefinedAnnotation`, and a bare `Ellipsis` is no type at all;
primitives, `Any`, `None`, unions and the standard containers are
supported, a dataclass is supported when its own fields are, `Tuple[X,
...]` is the variadic form, and a resolvable forward reference is
chased.  The wrap resolves references in the scope the pipeline
carries. -/
def tySchemaErr : Nat → List (String × ClassDef) → PyType → Option String
  | 0, _, _ => some "RecursionError"
  | fuel + 1, scope, t =>
    match t with
    | .anyT => Option.none
    | .boolT => Option.none
    | .intT => Option.none
    | .floatT => Option.none
    | .strT => Option.none
    | .noneT => Option.none
    | .ellipsisT => some "PydanticSchemaGenerationError"
    | .union alts => firstSomeList (alts.map (tySchemaErr fuel scope))
    | .listOf te => tySchemaErr fuel scope te
    | .setOf te => tySchemaErr fuel scope te
    | .dictOf kt vt => firstSomeList [tySchemaErr fuel scope kt, tySchemaErr fuel scope vt]
    | .tupleOf ts =>
        match ts with
        | [te, .ellipsisT] => tySchemaErr fuel scope te
        | _ => firstSomeList (ts.map (tySchemaErr fuel scope))
    | .fwd ref =>
        match scopeFind ref scope with
        | some c => tySchemaErr fuel scope (.classT c)
        | Option.none => some "PydanticUndefinedAnnotation"
    | .classT c =>
        if c.isDataclass then
          firstSomeList (c.params.map (fun p =>
            match p.ann with
            | .empty => Option.none
            | .noneV => Option.none
            | .raw _ => some "PydanticUndefinedAnnotation"
            | .ty t₂ => tySchemaErr fuel scope t₂))
        else some "PydanticSchemaGenerationError"

/-- The exception `pydantic.validate_call(function)` raises at wrap
time, if any.  The source applies the wrap under `validate` for any
non-class callable (`src/chat2func/functions.py` line 373) *outside*
every `function_call_error` guard; pydantic builds the validator eagerly
at decoration time from every parameter annotation, so such an exception
escapes `function_call` with its own type. -/
def validateWrapErr (fuel : Nat) (scope : List (String × ClassDef)) (validate : Bool)
    (f : Callable) : Option String :=
  if validate && !f.isClass then
    firstSomeList (f.params.map (fun p =>
      match p.ann with
      | .empty => Option.none
      | .noneV => Option.none
      | .raw _ => some "PydanticUndefinedAnnotation"
      | .ty t => tySchemaErr fuel scope t))
  else Option.none

/-- `function_call(name, arguments, functions, validate, from_json,
return_json, scope)` of `src/chat2func/functions.py` lines 332-392.
Each stage is wrapped by the `function_call_error` context manager
(lines 321-329), so its failure surfaces as a `FunctionCallError` whose
message carries that stage's tag:
lookup → "Function {name} not found."; `json.loads` → "Arguments are not
valid JSON." (also when a non-string reaches `json.loads`);
`schema_to_type` and binding → "Arguments do not match function
signature."; the call itself → "Function call failed.".  Between lookup
and JSON parsing, `validate` wraps a non-class callable with
`pydantic.validate_call` (line 373) — an expression *outside* every
guard: its call-time check runs inside the guarded call, but pydantic
also builds the validator eagerly at wrap time, and that wrap-time
exception (`validateWrapErr`) escapes with its own type (`.escaped`),
not as a `FunctionCallError`.  For a class, `validate` only logs.  A
non-serializable result degrades to `{"result": str(result)}` instead of
failing. -/
def function_call (fuel : Nat) (name : String) (arguments : JsonInput)
    (functions : List (String × Callable)) (validate : Bool) (from_json : Bool)
    (return_json : Bool) (scope : List (String × ClassDef)) : Except PyRaise CallResult :=
  match scopeFind name functions with
  | Option.none => .error (.fcError (.notFound ("Function " ++ name ++ " not found.")))
  | some f =>
    match validateWrapErr fuel scope validate f with
    | some e => .error (.escaped e)
    | Option.none =>
      let validated := validate && !f.isClass
      let parsed : Except PyRaise PyVal :=
        if from_json then
          match arguments with
          | .jsonText (some v) => .ok v
          | .jsonText Option.none => .error (.fcError (.invalidJson "Arguments are not valid JSON."))
          | .pyObject _ => .error (.fcError (.invalidJson "Arguments are not valid JSON."))
        else
          match arguments with
          | .pyObject v => .ok v
          | .jsonText _ =>
              .error (.fcError (.signatureMismatch "Arguments do not match function signature."))
      match parsed with
      | .error e => .error e
      | .ok argsVal =>
        let reconstructed : Except PyRaise (List (String × PyVal)) :=
          match argsVal with
          | .vdict fields =>
              (match strKeyed fields with
               | some sargs =>
                   (match schema_to_type fuel scope f.params sargs true with
                    | .ok r => .ok r.2
                    | .error e =>
                        .error (.fcError (.signatureMismatch
                          ("Arguments do not match function signature. " ++ e))))
               | Option.none =>
                   .error (.fcError (.signatureMismatch "Arguments do not match function signature.")))
          | _ => .error (.fcError (.signatureMismatch "Arguments do not match function signature."))
        match reconstructed with
        | .error e => .error e
        | .ok bound =>
          match callCallable fuel f validated bound with
          | .error e => .error (.fcError (.invocationFailed ("Function call failed. " ++ e)))
          | .ok result =>
            if return_json then
              match json_dumps fuel result with
              | some s => .ok (.asJson s)
              | Option.none =>
                  (match json_dumps fuel (.vdict [(.vstr "result", .vstr (pyStr fuel result))]) with
                   | some s => .ok (.asJson s)
                   | Option.none => .ok (.asJson ""))
            else .ok (.asValue result)

end Chat2Func

namespace Chat2Func

/-- A dict key as `json.dumps` coerces it. -/
def jsonKeyStr : PyVal → Option String
  | .vstr s => some s
  | .vint n => some (toString n)
  | .vfloat n d => some (renderFloat n d)
  | .vbool b => some (if b then "true" else "false")
  | .none => some "null"
  | _ => Option.none

/-- Modelled from the spec: `json.loads(json.dumps(v))`, the composite the
round-trip claim quantifies over.  The standard library round-trips JSON
primitives exactly (float serialization is `repr`-based and re-parses to
the same value); tuples serialize as arrays and come back as lists, dict
keys come back as their string coercions, and sets and instances are not
serializable. -/
def jsonRoundtrip : Nat → PyVal → Option PyVal
  | 0, _ => Option.none
  | _ + 1, .none => some .none
  | _ + 1, .vbool b => some (.vbool b)
  | _ + 1, .vint n => some (.vint n)
  | _ + 1, .vfloat n d => some (.vfloat n d)
  | _ + 1, .vstr s => some (.vstr s)
  | fuel + 1, .vlist xs => (mapOME (jsonRoundtrip fuel) xs).map .vlist
  | fuel + 1, .vtuple xs => (mapOME (jsonRoundtrip fuel) xs).map .vlist
  | fuel + 1, .vdict xs =>
      (mapOME (fun kv => do
        let k ← jsonKeyStr kv.1
        let w ← jsonRoundtrip fuel kv.2
        some ((PyVal.vstr k, w) : PyVal × PyVal)) xs).map .vdict
  | _ + 1, .vset _ => Option.none
  | _ + 1, .vinst _ _ => Option.none

/-- Modelled from the spec: the structural check of §4.5 step 3 — "validate
the parsed arguments against it structurally (type/required checks
only, no reconstruction)" — against a parameter schema produced by
`parse_function_params`.  JSON-Schema type names accept their JSON
carriers; a bool is not a number. -/
def jsonTypeOk (tyname : String) (v : PyVal) : Bool :=
  match tyname with
  | "integer" => (match v with | .vint _ => true | _ => false)
  | "number" => (match v with | .vint _ => true | .vfloat _ _ => true | _ => false)
  | "string" => (match v with | .vstr _ => true | _ => false)
  | "boolean" => (match v with | .vbool _ => true | _ => false)
  | "null" => (match v with | .none => true | _ => false)
  | "array" => (match v with | .vlist _ => true | _ => false)
  | "object" => (match v with | .vdict _ => true | _ => false)
  | _ => true

/-- Modelled from the spec: structural validation of a parsed argument
object against a parameter schema — every `required` name present, and
every present property with a declared `type` carried by a value of that
JSON type. -/
def validateAgainst (sch : PyVal) (args : PyVal) : Bool :=
  match args with
  | .vdict fields =>
      (match strKeyed fields with
       | some sargs =>
           let reqOk :=
             match dget sch "required" with
             | some (.vlist req) =>
                 req.all (fun r =>
                   match r with
                   | .vstr s => (alistFind s sargs).isSome
                   | _ => true)
             | _ => true
           let propsOk :=
             match dget sch "properties" with
             | some (.vdict props) =>
                 props.all (fun kv =>
                   match kv.1 with
                   | .vstr pname =>
                       (match alistFind pname sargs with
                        | some v =>
                            (match dget kv.2 "type" with
                             | some (.vstr t) => jsonTypeOk t v
                             | _ => true)
                        | Option.none => true)
                   | _ => true)
             | _ => true
           reqOk && propsOk
       | Option.none => false)
  | _ => false

/-- Modelled from the spec: the invocation pipeline of §4.5 with its
explicit validation stage — the newest `function_call` (the one
`chat2func/__init__.py` imports alongside `function_calls` and the test
suite exercises, e.g. `tests/test_readme.py` expects "Arguments do not
match the schema.") is absent from `src/`, so stage 3 is modelled from
the spec's words while every other stage reuses the source definitions:
resolve → `NotFound`; parse → `InvalidJson`; schema build + structural
validation (skipped with a log for classes) → `SchemaMismatch`;
reconstruction per §4.4 (`schema_to_type`) → `SignatureMismatch`;
invoke → `InvocationFailed`; serialize with the `{"result": str(...)}`
degradation. -/
def function_call_spec (fuel : Nat) (name : String) (arguments : JsonInput)
    (functions : List (String × Callable)) (validate : Bool) (from_json : Bool)
    (return_json : Bool) (scope : List (String × ClassDef)) : Except FCErr CallResult :=
  match scopeFind name functions with
  | Option.none => .error (.notFound ("Function " ++ name ++ " not found."))
  | some f =>
    let parsed : Except FCErr PyVal :=
      if from_json then
        match arguments with
        | .jsonText (some v) => .ok v
        | .jsonText Option.none => .error (.invalidJson "Arguments are not valid JSON.")
        | .pyObject _ => .error (.invalidJson "Arguments are not valid JSON.")
      else
        match arguments with
        | .pyObject v => .ok v
        | .jsonText _ => .error (.signatureMismatch "Arguments do not match function signature.")
    match parsed with
    | .error e => .error e
    | .ok argsVal =>
      let validation : Except FCErr Unit :=
        if validate && !f.isClass then
          match parse_function_params fuel f.params f.docParams true with
          | .ok sch =>
              if validateAgainst sch argsVal then .ok ()
              else .error (.schemaMismatch "Arguments do not match the schema.")
          | .error e => .error (.schemaMismatch ("Arguments do not match the schema. " ++ e))
        else .ok ()
      match validation with
      | .error e => .error e
      | .ok _ =>
        let reconstructed : Except FCErr (List (String × PyVal)) :=
          match argsVal with
          | .vdict fields =>
              (match strKeyed fields with
               | some sargs =>
                   (match schema_to_type fuel scope f.params sargs true with
                    | .ok r => .ok r.2
                    | .error e =>
                        .error (.signatureMismatch
                          ("Arguments do not match function signature. " ++ e)))
               | Option.none =>
                   .error (.signatureMismatch "Arguments do not match function signature."))
          | _ => .error (.signatureMismatch "Arguments do not match function signature.")
        match reconstructed with
        | .error e => .error e
        | .ok bound =>
          match (if f.isClass then .ok (.vinst f.name bound) else f.body bound :
              Except String PyVal) with
          | .error e => .error (.invocationFailed ("Function call failed. " ++ e))
          | .ok result =>
            if return_json then
              match json_dumps fuel result with
              | some s => .ok (.asJson s)
              | Option.none =>
                  (match json_dumps fuel (.vdict [(.vstr "result", .vstr (pyStr fuel result))]) with
                   | some s => .ok (.asJson s)
                   | Option.none => .ok (.asJson ""))
            else .ok (.asValue result)

/-- Python numeric addition for the `add` scenario's body:
int + int stays int, any float makes a float. -/
def pyAdd : PyVal → PyVal → Option PyVal
  | .vint a, .vint b => some (.vint (a + b))
  | .vint a, .vfloat n d => some (.vfloat (a * (d : Int) + n) d)
  | .vfloat n d, .vint b => some (.vfloat (n + b * (d : Int)) d)
  | .vfloat n₁ d₁, .vfloat n₂ d₂ => some (.vfloat (n₁ * (d₂ : Int) + n₂ * (d₁ : Int)) (d₁ * d₂))
  | _, _ => Option.none

/-- The end-to-end scenario's callable: `add(x: float, y: float) -> float`
with docstring "Add two floats." and body `return x + y`. -/
def addFn : Callable :=
  ⟨"add", [.mk "x" (.ty .floatT) Option.none, .mk "y" (.ty .floatT) Option.none],
   false, [], some "Add two floats.", Option.none, .ty .floatT,
   fun bound =>
     match alistFind "x" bound, alistFind "y" bound with
     | some a, some b =>
         (match pyAdd a b with
          | some r => .ok r
          | Option.none => .error "TypeError")
     | _, _ => .error "TypeError"⟩

end Chat2Func

namespace Chat2Func

/-- Stand-in for Python's default recursion limit; every concrete claim
below is far below it, so its exact value is immaterial. -/
def recursionLimit : Nat := 100

/-- The self-referential dataclass of the composite-recursion claim
(`C` in `tests/test_functions_nested.py`):
`a: int` and `b: Optional["C"] = None`, the annotation of `b` being
`Union[ForwardRef("C"), NoneType]`. -/
def cNode : ClassDef :=
  .mk "C" true
    [.mk "a" (.ty .intT) Option.none,
     .mk "b" (.ty (.union [.fwd "C", .noneT])) (some .none)]

/-- The raw JSON argument `{"a": 3}` nested innermost. -/
def inner3 : PyVal := .vdict [(.vstr "a", .vint 3)]

/-- The raw JSON argument `{"a": 2, "b": {"a": 3}}`. -/
def inner2 : PyVal := .vdict [(.vstr "a", .vint 2), (.vstr "b", inner3)]

/-- The raw arguments `{"a": 1, "b": {"a": 2, "b": {"a": 3}}}` of the
composite-recursion claim. -/
def nodeArgs : List (String × PyVal) := [("a", .vint 1), ("b", inner2)]

/-- The 3-level chain `C(1, C(2, C(3, None)))` the claim expects. -/
def expectedChain : PyVal :=
  .vinst "C" [("a", .vint 1),
    ("b", .vinst "C" [("a", .vint 2),
      ("b", .vinst "C" [("a", .vint 3), ("b", .none)])])]

/-- The value the source actually builds for parameter `b`: the bare
constructor call `C({"a": 2, "b": {"a": 3}})` succeeds (a dataclass does
not type-check), binding the whole raw dict to field `a`. -/
def degenerateNode : PyVal := .vinst "C" [("a", inner2), ("b", .none)]

end Chat2Func

namespace Chat2Func

/-- A registry probe: `probe(a: int, b: bool = False)` returning
`a > 0 and b`. -/
def probeFn : Callable :=
  ⟨"probe", [.mk "a" (.ty .intT) Option.none, .mk "b" (.ty .boolT) (some (.vbool false))],
   false, [], Option.none, Option.none, .ty .boolT,
   fun bound =>
     match alistFind "a" bound, alistFind "b" bound with
     | some (.vint n), some (.vbool bb) => .ok (.vbool (decide (0 < n) && bb))
     | _, _ => .error "TypeError"⟩

/-- A callable whose body always raises (`assert False`). -/
def crashFn : Callable :=
  ⟨"crash", [], false, [], Option.none, Option.none, .empty, fun _ => .error "AssertionError"⟩

/-- A plain (non-dataclass) class, for which pydantic cannot build a
core schema. -/
def plainCls : ClassDef := .mk "Plain" false [.mk "x" (.ty .intT) Option.none]

/-- A plain function with a plain-class parameter annotation: wrapping
it with `pydantic.validate_call` raises at decoration time. -/
def classParamFn : Callable :=
  ⟨"takesp", [.mk "p" (.ty (.classT plainCls)) Option.none],
   false, [], Option.none, Option.none, .empty, fun _ => .ok .none⟩

/-- C6: end-to-end, for `add(x: float, y: float) -> float` with docstring
"Add two floats.": the pipeline with `validate=true` returns the JSON
string "3.0" on `{"x": 1.0, "y": 2.0}`, and fails with the
schema-validation (`SchemaMismatch`) error — before any reconstruction or
call-time failure — on `{"x": "a", "y": 2.0}`. -/
theorem C6_add_end_to_end :
    function_call_spec recursionLimit "add"
      (.jsonText (some (.vdict [(.vstr "x", .vfloat 1 1), (.vstr "y", .vfloat 2 1)])))
      [("add", addFn)] true true true [] = .ok (.asJson "3.0") ∧
    function_call_spec recursionLimit "add"
      (.jsonText (some (.vdict [(.vstr "x", .vstr "a"), (.vstr "y", .vfloat 2 1)])))
      [("add", addFn)] true true true []
      = .error (.schemaMismatch "Arguments do not match the schema.") :=
  ⟨rfl, rfl⟩

/-- C4: evaluating the reconstructor at the failing input
`{"a": 1, "b": {"a": 2, "b": {"a": 3}}}` against the self-referential
node type: the forward-referenced field goes through the bare constructor
call `C(raw_dict)`, which binds the whole nested dict to the `a` field,
so the result is a 2-level chain with the raw dict inside — not the
3-level chain the claim (and the spec's composite rule) describes. -/
theorem C4_recursive_composite_bug :
    (schema_to_type recursionLimit [("C", cNode)] cNode.params nodeArgs true).map Prod.snd
      = .ok [("a", .vint 1), ("b", degenerateNode)] ∧
    instantiate_type recursionLimit [("C", cNode)] (.union [.fwd "C", .noneT]) inner2
      = .ok degenerateNode ∧
    .vinst "C" [("a", .vint 1), ("b", degenerateNode)] ≠ expectedChain :=
  ⟨rfl, rfl, by simp [degenerateNode, expectedChain, inner2, inner3]⟩

/-- C5 counterexample: a fixed-length `Tuple[int, str]` descriptor against
raw sequences of the wrong length does *not* fail — `zip` silently
truncates, returning a shorter tuple (or dropping raw elements). -/
theorem C5_counterexample :
    instantiate_type recursionLimit [] (.tupleOf [.intT, .strT]) (.vlist [.vstr "1"])
      = .ok (.vtuple [.vint 1]) ∧
    instantiate_type recursionLimit [] (.tupleOf [.intT, .strT])
      (.vlist [.vint 1, .vstr "a", .vint 7]) = .ok (.vtuple [.vint 1, .vstr "a"]) :=
  ⟨rfl, rfl⟩

/-- C7 counterexample: a parameter whose only type information is the
docstring-declared name "UnknownType" (which `eval` cannot resolve, so it
degrades to the raw string) makes `parse_function_params` raise out of
the schema build — `type_to_schema` re-raises for a non-class,
non-builtin annotation instead of degrading. -/
theorem C7_counterexample :
    parse_function_params recursionLimit [.mk "a" .empty Option.none]
      [⟨"a", some "some arg", some "UnknownType", false, Option.none⟩] true
      = .error "PydanticUndefinedAnnotation" :=
  rfl

/-- C8 counterexample: a parameter annotated with the subscripted generic
`List[int]` and carrying the mismatched default `5`: the builder's
`isinstance(default, annotation)` call itself raises `TypeError`
("Subscripted generics cannot be used with class and instance checks"),
so schema building raises instead of omitting the default. -/
theorem C8_counterexample :
    parse_function_params recursionLimit
      [.mk "a" (.ty (.listOf .intT)) (some (.vint 5))] [] true = .error "TypeError" :=
  rfl

/-- C1 counterexample: for `Union[int, str]` and the raw value `True`
(a bool — whose runtime type exactly matches neither alternative), the
claim's general rule dictates trying the alternatives in order, and
reconstruction against `int` succeeds with `int(True) = 1`; but the code
returns `True` unchanged, because its pre-check is `isinstance`, and a
bool is an instance of `int`. -/
theorem C1_counterexample :
    exactTypeMatch (.vbool true) .intT = false ∧
    exactTypeMatch (.vbool true) .strT = false ∧
    instantiate_type recursionLimit [] .intT (.vbool true) = .ok (.vint 1) ∧
    instantiate_type recursionLimit [] (.union [.intT, .strT]) (.vbool true)
      = .ok (.vbool true) ∧
    PyVal.vbool true ≠ PyVal.vint 1 :=
  ⟨rfl, rfl, rfl, rfl, fun h => PyVal.noConfusion h⟩

end Chat2Func

namespace Chat2Func

/-- The five supported primitive descriptors of the round-trip claim. -/
def isPrimitiveT : PyType → Bool
  | .boolT => true
  | .intT => true
  | .floatT => true
  | .strT => true
  | .noneT => true
  | _ => false

/-- C9: for every supported primitive type and every value of exactly that
runtime type, JSON-serializing and re-parsing gives the value back, and
reconstructing it against the type's descriptor returns it unchanged. -/
theorem C9_primitive_roundtrip (fuel : Nat) (scope : List (String × ClassDef))
    (t : PyType) (v : PyVal) (hp : isPrimitiveT t = true)
    (hm : exactTypeMatch v t = true) :
    jsonRoundtrip (fuel + 1) v = some v ∧
      instantiate_type (fuel + 1) scope t v = .ok v := by
  cases t <;> cases v <;>
    first
      | exact ⟨rfl, rfl⟩
      | exact Bool.noConfusion hp
      | exact Bool.noConfusion hm

/-- Witness for C9 at the float `2.7`. -/
theorem C9_primitive_roundtrip_witness :
    jsonRoundtrip (recursionLimit + 1) (.vfloat 27 10) = some (.vfloat 27 10) ∧
      instantiate_type (recursionLimit + 1) [] .floatT (.vfloat 27 10) = .ok (.vfloat 27 10) :=
  C9_primitive_roundtrip recursionLimit [] .floatT (.vfloat 27 10) rfl rfl

/-- The element `i` of a list of attempts is the first success: then the
union loop returns exactly its payload. -/
theorem firstOkList_spec (l : List (Except String PyVal)) (i : Nat) (h : i < l.length)
    (hbefore : ∀ j (hj : j < i), (l.get ⟨j, Nat.lt_trans hj h⟩).isOk = false)
    (hok : (l.get ⟨i, h⟩).isOk = true) :
    ∃ r, l.get ⟨i, h⟩ = .ok r ∧ firstOkList l = some r := by
  induction l generalizing i with
  | nil => exact absurd h (Nat.not_lt_zero i)
  | cons x rest ih =>
    cases i with
    | zero =>
      cases x with
      | ok r => exact ⟨r, rfl, rfl⟩
      | error e => simp [Except.isOk, Except.toBool] at hok
    | succ i₂ =>
      have hx : x.isOk = false := hbefore 0 (Nat.succ_pos i₂)
      cases x with
      | ok r => simp [Except.isOk, Except.toBool] at hx
      | error e =>
        have h₂ : i₂ < rest.length := Nat.lt_of_succ_lt_succ h
        have := ih i₂ h₂ (fun j hj => hbefore (j + 1) (Nat.succ_lt_succ hj)) hok
        exact ⟨this.choose, this.choose_spec.1, this.choose_spec.2⟩

/-- Every attempt fails: the union loop fails. -/
theorem firstOkList_none (l : List (Except String PyVal))
    (hall : ∀ j (hj : j < l.length), (l.get ⟨j, hj⟩).isOk = false) :
    firstOkList l = Option.none := by
  induction l with
  | nil => rfl
  | cons x rest ih =>
    have hx : x.isOk = false := hall 0 (Nat.succ_pos _)
    cases x with
    | ok r => simp [Except.isOk, Except.toBool] at hx
    | error e => exact ih (fun j hj => hall (j + 1) (Nat.succ_lt_succ hj))

end Chat2Func
namespace Chat2Func

/-- C1 (amended): union reconstruction is order-deterministic with
instance match taking precedence over conversion.  For `Union[int, str]`
the raw string "5" and the raw int 5 come back unchanged; in general,
when the raw value is an *instance* of any union alternative that is a
class object (Python `isinstance`, under which a bool counts as an int —
the one departure from the claim's "runtime type exactly matches"), the
value is returned unchanged; otherwise the alternatives are tried for
recursive reconstruction in declared order, the first success wins, and
the union fails only when every alternative fails. -/
theorem C1_union_order :
    instantiate_type recursionLimit [] (.union [.intT, .strT]) (.vstr "5") = .ok (.vstr "5") ∧
    instantiate_type recursionLimit [] (.union [.intT, .strT]) (.vint 5) = .ok (.vint 5) ∧
    (∀ (fuel : Nat) (scope : List (String × ClassDef)) (alts : List PyType) (v : PyVal)
      (a : PyType), a ∈ alts → isTypeObj a = true → pyIsinstance v a = true →
      instantiate_type (fuel + 1) scope (.union alts) v = .ok v) ∧
    (∀ (fuel : Nat) (scope : List (String × ClassDef)) (alts : List PyType) (v : PyVal),
      (∀ a ∈ alts, (isTypeObj a && pyIsinstance v a) = false) →
      ((∀ (i : Nat) (h : i < alts.length),
        (∀ j (hj : j < i),
          (instantiate_type fuel scope (alts.get ⟨j, Nat.lt_trans hj h⟩) v).isOk = false) →
        ∀ r, instantiate_type fuel scope (alts.get ⟨i, h⟩) v = .ok r →
        instantiate_type (fuel + 1) scope (.union alts) v = .ok r) ∧
      ((∀ (j : Nat) (hj : j < alts.length),
          (instantiate_type fuel scope (alts.get ⟨j, hj⟩) v).isOk = false) →
        instantiate_type (fuel + 1) scope (.union alts) v = .error "ValueError"))) := by
  refine ⟨rfl, rfl, ?_, ?_⟩
  · intro fuel scope alts v a ha hta hvi
    have hany : alts.any (fun a => isTypeObj a && pyIsinstance v a) = true :=
      List.any_eq_true.mpr ⟨a, ha, by simp [hta, hvi]⟩
    show (if alts.any (fun a => isTypeObj a && pyIsinstance v a) then (.ok v : Except String PyVal)
      else
        match firstOkList (alts.map (fun a => instantiate_type fuel scope a v)) with
        | some r => .ok r
        | Option.none => .error "ValueError") = .ok v
    rw [hany]
    rfl
  · intro fuel scope alts v hnone
    have hany : alts.any (fun a => isTypeObj a && pyIsinstance v a) = false := by
      rw [List.any_eq_false]
      intro a ha
      simp [hnone a ha]
    constructor
    · intro i h hbefore r hi
      have hlen : i < (alts.map (fun a => instantiate_type fuel scope a v)).length := by
        rw [List.length_map]; exact h
      have hget : ∀ (k : Nat) (hk : k < alts.length),
          (alts.map (fun a => instantiate_type fuel scope a v)).get
            ⟨k, by rw [List.length_map]; exact hk⟩ =
          instantiate_type fuel scope (alts.get ⟨k, hk⟩) v := by
        intro k hk
        simp [List.getElem_map]
      obtain ⟨r₂, hr₂, hfirst⟩ := firstOkList_spec
        (alts.map (fun a => instantiate_type fuel scope a v)) i hlen
        (by
          intro j hj
          rw [hget j (Nat.lt_trans hj h)]
          exact hbefore j hj)
        (by
          rw [hget i h, hi]
          rfl)
      rw [hget i h, hi] at hr₂
      have hr : r₂ = r := by
        cases hr₂
        rfl
      show (if alts.any (fun a => isTypeObj a && pyIsinstance v a) then (.ok v : Except String PyVal)
        else
          match firstOkList (alts.map (fun a => instantiate_type fuel scope a v)) with
          | some r => .ok r
          | Option.none => .error "ValueError") = .ok r
      rw [hany, hfirst, hr]
      rfl
    · intro hall
      have hfirst : firstOkList (alts.map (fun a => instantiate_type fuel scope a v))
          = Option.none := by
        apply firstOkList_none
        intro j hj
        have hj₂ : j < alts.length := by
          rw [List.length_map] at hj; exact hj
        have : (alts.map (fun a => instantiate_type fuel scope a v)).get ⟨j, hj⟩ =
            instantiate_type fuel scope (alts.get ⟨j, hj₂⟩) v := by
          simp [List.getElem_map]
        rw [this]
        exact hall j hj₂
      show (if alts.any (fun a => isTypeObj a && pyIsinstance v a) then (.ok v : Except String PyVal)
        else
          match firstOkList (alts.map (fun a => instantiate_type fuel scope a v)) with
          | some r => .ok r
          | Option.none => .error "ValueError") = .error "ValueError"
      rw [hany, hfirst]
      rfl

/-- Witness for C1: `Optional[int]`-style instance short-circuit on
`None`, and declared-order fallback for `Union[int, float]` on the string
"2.5" (the int alternative fails, the float alternative wins). -/
theorem C1_union_order_witness :
    instantiate_type (recursionLimit + 1) [] (.union [.noneT, .intT]) .none = .ok .none ∧
    instantiate_type (recursionLimit + 1) [] (.union [.intT, .floatT]) (.vstr "2.5")
      = .ok (.vfloat 25 10) := by
  constructor
  · exact C1_union_order.2.2.1 recursionLimit [] [.noneT, .intT] .none .noneT
      (List.mem_cons_self _ _) rfl rfl
  · exact (C1_union_order.2.2.2 recursionLimit [] [.intT, .floatT] (.vstr "2.5")
      (by intro a ha; simp at ha; rcases ha with rfl | rfl <;> rfl)).1 1 (by decide)
      (fun j hj =>
        match j, hj with
        | 0, _ => rfl
        | j + 1, hj => absurd hj (by omega))
      (.vfloat 25 10) rfl

end Chat2Func
namespace Chat2Func

/-- A successful effectful map preserves length. -/
theorem mapME_length (g : α → Except String β) :
    ∀ (l : List α) (ys : List β), mapME g l = .ok ys → ys.length = l.length := by
  intro l
  induction l with
  | nil =>
    intro ys h
    cases h
    rfl
  | cons x rest ih =>
    intro ys h
    simp only [mapME] at h
    cases hx : g x with
    | error e => rw [hx] at h; exact Except.noConfusion h
    | ok y =>
      rw [hx] at h
      cases hrest : mapME g rest with
      | error e => rw [hrest] at h; exact Except.noConfusion h
      | ok ys₂ =>
        rw [hrest] at h
        cases h
        simp [ih ys₂ hrest]

/-- C5 (amended): tuple reconstruction never checks lengths — the raw
sequence is paired positionally against the element descriptors by `zip`,
which silently truncates to the shorter side, so a successful result has
`min` of the two lengths; the single element descriptor is broadcast to
the raw length exactly when the descriptor list is `[t]` or
`[t, Ellipsis]`. -/
theorem C5_tuple_zip :
    (∀ (fuel : Nat) (scope : List (String × ClassDef)) (t₁ : PyType) (v : PyVal)
      (xs : List PyVal), pyIter v = some xs →
      instantiate_type (fuel + 1) scope (.tupleOf [t₁]) v =
        (mapME (fun tv => instantiate_type fuel scope tv.1 tv.2)
          ((List.replicate xs.length t₁).zip xs)).map .vtuple) ∧
    (∀ (fuel : Nat) (scope : List (String × ClassDef)) (t₁ : PyType) (v : PyVal)
      (xs : List PyVal), pyIter v = some xs →
      instantiate_type (fuel + 1) scope (.tupleOf [t₁, .ellipsisT]) v =
        (mapME (fun tv => instantiate_type fuel scope tv.1 tv.2)
          ((List.replicate xs.length t₁).zip xs)).map .vtuple) ∧
    (∀ (fuel : Nat) (scope : List (String × ClassDef)) (t₁ t₂ : PyType)
      (rest : List PyType) (v : PyVal) (xs : List PyVal), pyIter v = some xs →
      (t₂ = .ellipsisT → rest ≠ []) →
      instantiate_type (fuel + 1) scope (.tupleOf (t₁ :: t₂ :: rest)) v =
        (mapME (fun tv => instantiate_type fuel scope tv.1 tv.2)
          ((t₁ :: t₂ :: rest).zip xs)).map .vtuple) ∧
    (∀ (g : PyType × PyVal → Except String PyVal) (targs : List PyType)
      (xs : List PyVal) (ys : List PyVal), mapME g (targs.zip xs) = .ok ys →
      ys.length = min targs.length xs.length) := by
  refine ⟨?_, ?_, ?_, ?_⟩
  · intro fuel scope t₁ v xs hiter
    show (match pyIter v with
      | some xs =>
          (mapME (fun (tv : PyType × PyVal) => instantiate_type fuel scope tv.1 tv.2)
            (match ([t₁] : List PyType) with
              | [t₁] => (List.replicate xs.length t₁).zip xs
              | [t₁, .ellipsisT] => (List.replicate xs.length t₁).zip xs
              | _ => ([t₁] : List PyType).zip xs)).map PyVal.vtuple
      | Option.none => .error "TypeError") = _
    rw [hiter]
  · intro fuel scope t₁ v xs hiter
    show (match pyIter v with
      | some xs =>
          (mapME (fun (tv : PyType × PyVal) => instantiate_type fuel scope tv.1 tv.2)
            (match ([t₁, .ellipsisT] : List PyType) with
              | [t₁] => (List.replicate xs.length t₁).zip xs
              | [t₁, .ellipsisT] => (List.replicate xs.length t₁).zip xs
              | _ => ([t₁, .ellipsisT] : List PyType).zip xs)).map PyVal.vtuple
      | Option.none => .error "TypeError") = _
    rw [hiter]
  · intro fuel scope t₁ t₂ rest v xs hiter hnb
    show (match pyIter v with
      | some xs =>
          (mapME (fun (tv : PyType × PyVal) => instantiate_type fuel scope tv.1 tv.2)
            (match (t₁ :: t₂ :: rest : List PyType) with
              | [t₁] => (List.replicate xs.length t₁).zip xs
              | [t₁, .ellipsisT] => (List.replicate xs.length t₁).zip xs
              | _ => (t₁ :: t₂ :: rest : List PyType).zip xs)).map PyVal.vtuple
      | Option.none => .error "TypeError") = _
    rw [hiter]
    cases rest with
    | cons r rs => cases t₂ <;> rfl
    | nil =>
      cases t₂ with
      | ellipsisT => exact absurd rfl (hnb rfl)
      | anyT => rfl
      | boolT => rfl
      | intT => rfl
      | floatT => rfl
      | strT => rfl
      | noneT => rfl
      | union alts => rfl
      | listOf te => rfl
      | tupleOf ts => rfl
      | dictOf kt vt => rfl
      | setOf te => rfl
      | fwd n => rfl
      | classT c => rfl
  · intro g targs xs ys h
    rw [mapME_length g (targs.zip xs) ys h, List.length_zip]

/-- Witness for C5: `Tuple[int, str]` against the two-element prefix of a
three-element raw list reconstructs both positions and truncates to
length `min 2 3 = 2`. -/
theorem C5_tuple_zip_witness :
    instantiate_type (recursionLimit + 1) [] (.tupleOf [.intT, .strT])
      (.vlist [.vstr "2", .vbool false, .vint 9]) = .ok (.vtuple [.vint 2, .vstr "False"]) ∧
    (2 : Nat) = min 2 3 := by
  constructor
  · rw [C5_tuple_zip.2.2.1 recursionLimit [] .intT .strT [] (.vlist [.vstr "2", .vbool false, .vint 9])
      [.vstr "2", .vbool false, .vint 9] rfl (fun h => PyType.noConfusion h)]
    rfl
  · exact C5_tuple_zip.2.2.2 (fun tv => instantiate_type recursionLimit [] tv.1 tv.2)
      [.intT, .strT] [.vstr "2", .vbool false, .vint 9] [.vint 2, .vstr "False"] rfl

end Chat2Func
namespace Chat2Func

/-- The `required` list of a parameter schema (`[]` when the key is
absent, which the source leaves out exactly when no parameter is
required). -/
def requiredNames (sch : PyVal) : List PyVal :=
  match dget sch "required" with
  | some (.vlist xs) => xs
  | _ => []

/-- C2: in a successfully built parameter schema, the `required` list is
exactly the names of the parameters without a signature default, in
order; hence (for the distinct parameter names Python guarantees) a
parameter appears in `required` iff its signature supplies no default —
the docstring, quantified over arbitrarily here, never affects
membership. -/
theorem C2_requiredness (fuel : Nat) (ps : List SigParam) (dps : List DocParam)
    (descs : Bool) (sch : PyVal)
    (h : parse_function_params fuel ps dps descs = .ok sch) :
    requiredNames sch
      = (ps.filter (fun p => p.dflt.isNone)).map (fun p => PyVal.vstr p.name) ∧
    ∀ p ∈ ps, (ps.map SigParam.name).Nodup →
      (PyVal.vstr p.name ∈ requiredNames sch ↔ p.dflt = Option.none) := by
  match fuel with
  | 0 => exact Except.noConfusion h
  | fuel + 1 =>
    unfold parse_function_params at h
    simp only [bind, Except.bind] at h
    cases hm : mapME (paramFrag fuel (docstring_to_params dps) descs) ps with
    | error e =>
      rw [hm] at h
      exact Except.noConfusion h
    | ok frags =>
      rw [hm] at h
      simp only [Except.ok.injEq] at h
      have hreq : requiredNames sch
          = (ps.filter (fun p => p.dflt.isNone)).map (fun p => PyVal.vstr p.name) := by
        rw [h.symm]
        cases he : ((ps.filter (fun (p : SigParam) => p.dflt.isNone)).map SigParam.name).isEmpty with
        | true =>
          have hf : ps.filter (fun (p : SigParam) => p.dflt.isNone) = [] :=
            List.map_eq_nil_iff.mp (List.isEmpty_iff.mp he)
          rw [hf]
          rfl
        | false =>
          have hv : requiredNames (jdict
              ([("type", PyVal.vstr "object"), ("properties", jdict frags)] ++
                [("required", PyVal.vlist (List.map PyVal.vstr
                  (List.map SigParam.name (ps.filter (fun p => p.dflt.isNone)))))]))
              = List.map PyVal.vstr
                  (List.map SigParam.name (ps.filter (fun p => p.dflt.isNone))) := rfl
          simp only [Bool.false_eq_true, if_false]
          rw [hv, List.map_map]
          rfl
      refine ⟨hreq, ?_⟩
      intro p hp hnd
      rw [hreq]
      constructor
      · intro hmem
        rcases List.mem_map.mp hmem with ⟨q, hq, hqe⟩
        have hqn : q.name = p.name := by
          have h₃ := PyVal.vstr.injEq q.name p.name
          rw [hqe] at h₃
          simp at h₃
          exact h₃
        rcases List.mem_filter.mp hq with ⟨hqps, hqd⟩
        have h₄ : q = p := List.inj_on_of_nodup_map hnd hqps hp hqn
        subst h₄
        exact Option.isNone_iff_eq_none.mp hqd
      · intro hd
        exact List.mem_map.mpr ⟨p, List.mem_filter.mpr ⟨hp, by simp [hd]⟩, rfl⟩

/-- Witness for C2: `test(a: int, b: bool = False)` whose docstring
(falsely) marks `a` optional with a default — `a` is still required, `b`
still is not. -/
theorem C2_requiredness_witness :
    requiredNames (jdict [("type", .vstr "object"),
        ("properties", jdict
          [("a", jdict [("type", .vstr "integer"), ("description", .vstr "first")]),
           ("b", jdict [("type", .vstr "boolean"), ("default", .vbool false)])]),
        ("required", .vlist [.vstr "a"])])
      = [PyVal.vstr "a"] ∧
    (PyVal.vstr "a" ∈ requiredNames (jdict [("type", .vstr "object"),
        ("properties", jdict
          [("a", jdict [("type", .vstr "integer"), ("description", .vstr "first")]),
           ("b", jdict [("type", .vstr "boolean"), ("default", .vbool false)])]),
        ("required", .vlist [.vstr "a"])]) ↔
      (SigParam.mk "a" (.ty .intT) Option.none).dflt = Option.none) := by
  have h := C2_requiredness recursionLimit
    [.mk "a" (.ty .intT) Option.none, .mk "b" (.ty .boolT) (some (.vbool false))]
    [⟨"a", some "first", some "int", true, some "7"⟩] true
    (jdict [("type", .vstr "object"),
      ("properties", jdict
        [("a", jdict [("type", .vstr "integer"), ("description", .vstr "first")]),
         ("b", jdict [("type", .vstr "boolean"), ("default", .vbool false)])]),
      ("required", .vlist [.vstr "a"])]) rfl
  exact ⟨h.1.trans rfl,
    h.2 (.mk "a" (.ty .intT) Option.none) (List.mem_cons_self _ _) (by decide)⟩

end Chat2Func
namespace Chat2Func

/-- An unresolvable raw name makes `type_to_schema` raise (pydantic
cannot resolve the forward reference and the string is neither a class
nor a function). -/
theorem type_to_schema_raw_unresolvable (fuel : Nat) (s : String)
    (hs : resolveName s = Option.none) :
    ∃ e, type_to_schema fuel (Ann.raw s) = .error e := by
  match fuel with
  | 0 => exact ⟨"RecursionError", rfl⟩
  | 1 => exact ⟨"RecursionError", rfl⟩
  | g + 2 =>
    refine ⟨"PydanticUndefinedAnnotation", ?_⟩
    show (match resolveName s with
      | some t => typeAdapterSchema g (.ty t)
      | Option.none => .error "PydanticUndefinedAnnotation") = _
    rw [hs]

/-- C7 (amended): resolution failure is silent in docstring extraction
(the raw name is kept, nothing raised) and in the response-schema build
(the content schema is dropped, the documented description survives);
but in the parameter-schema build an unresolvable reference propagates an
exception out of `parse_function_params` (the counterexample). -/
theorem C7_silent_degrade :
    (∀ (dps : List DocParam) (p : DocParam) (s : String), p ∈ dps →
      p.type_name = some s → resolveName s = Option.none →
      (p.arg_name, (⟨p.arg_name, p.description,
        (if p.is_optional then p.dflt else Option.none), Ann.raw s⟩ : Parameter))
        ∈ docstring_to_params dps) ∧
    (∀ (fuel : Nat) (f : Callable) (d s : String), f.isClass = false →
      f.returnAnn = .empty → f.docReturns = some ⟨some d, some s⟩ →
      resolveName s = Option.none → d.isEmpty = false →
      parse_function_responses fuel f true
        = some (jdict [("200", jdict [("description", .vstr d)])])) := by
  constructor
  · intro dps p s hp htn hs
    refine List.mem_map.mpr ⟨p, hp, ?_⟩
    rw [htn]
    show (p.arg_name, (⟨p.arg_name, p.description,
        (if p.is_optional then p.dflt else Option.none),
        match resolveName s with
        | some t => Ann.ty t
        | Option.none => Ann.raw s⟩ : Parameter))
      = _
    rw [hs]
  · intro fuel f d s hc hra hdr hs hd
    rcases type_to_schema_raw_unresolvable fuel s hs with ⟨e, he⟩
    unfold parse_function_responses
    rw [hc, hra, hdr]
    simp only [Bool.false_eq_true, if_false, he, hd]
    rfl

/-- Witness for C7: the callable of `test_eval_exception` — docstring
return type "UnknownType" with description "An unknown type." — degrades
to a description-only response, and its docstring parameter keeps the raw
name. -/
theorem C7_silent_degrade_witness :
    ("arg", (⟨"arg", some "an arg", Option.none, Ann.raw "Mystery"⟩ : Parameter))
      ∈ docstring_to_params [⟨"arg", some "an arg", some "Mystery", false, Option.none⟩] ∧
    parse_function_responses recursionLimit
      ⟨"func", [], false, [], some "Desc", some ⟨some "An unknown type.", some "UnknownType"⟩,
        .empty, fun _ => .ok .none⟩ true
      = some (jdict [("200", jdict [("description", .vstr "An unknown type.")])]) := by
  constructor
  · exact C7_silent_degrade.1
      [⟨"arg", some "an arg", some "Mystery", false, Option.none⟩]
      ⟨"arg", some "an arg", some "Mystery", false, Option.none⟩ "Mystery"
      (List.mem_cons_self _ _) rfl rfl
  · exact C7_silent_degrade.2 recursionLimit
      ⟨"func", [], false, [], some "Desc", some ⟨some "An unknown type.", some "UnknownType"⟩,
        .empty, fun _ => .ok .none⟩ "An unknown type." "UnknownType" rfl rfl rfl rfl rfl

end Chat2Func
namespace Chat2Func

/-- Writing one key leaves every other key's lookup unchanged. -/
theorem dget_dset_ne (d : PyVal) (k k₂ : String) (v : PyVal) (h : k ≠ k₂) :
    dget (dset d k₂ v) k = dget d k := by
  cases d with
  | vdict xs =>
    show dgetGo (dsetGo xs k₂ v) k = dgetGo xs k
    induction xs with
    | nil =>
      show (if k = k₂ then some v else Option.none) = Option.none
      rw [if_neg h]
    | cons p rest ih =>
      rcases p with ⟨pk, pv⟩
      cases pk with
      | vstr k₃ =>
        by_cases h₃ : k₂ = k₃
        · subst h₃
          show dgetGo (if k₂ = k₂ then (PyVal.vstr k₂, v) :: rest
              else (PyVal.vstr k₂, pv) :: dsetGo rest k₂ v) k
            = dgetGo ((PyVal.vstr k₂, pv) :: rest) k
          rw [if_pos rfl]
          show (if k = k₂ then some v else dgetGo rest k)
            = if k = k₂ then some pv else dgetGo rest k
          rw [if_neg h, if_neg h]
        · show dgetGo (if k₂ = k₃ then (PyVal.vstr k₂, v) :: rest
              else (PyVal.vstr k₃, pv) :: dsetGo rest k₂ v) k
            = dgetGo ((PyVal.vstr k₃, pv) :: rest) k
          rw [if_neg h₃]
          show (if k = k₃ then some pv else dgetGo (dsetGo rest k₂ v) k)
            = if k = k₃ then some pv else dgetGo rest k
          by_cases hk : k = k₃
          · rw [if_pos hk, if_pos hk]
          · rw [if_neg hk, if_neg hk, ih]
      | none => exact ih
      | vbool b => exact ih
      | vint n => exact ih
      | vfloat n dn => exact ih
      | vlist ys => exact ih
      | vtuple ys => exact ih
      | vset ys => exact ih
      | vdict ys => exact ih
      | vinst c fs => exact ih
  | none => rfl
  | vbool b => rfl
  | vint n => rfl
  | vfloat n dn => rfl
  | vstr s => rfl
  | vlist xs => rfl
  | vtuple xs => rfl
  | vset xs => rfl
  | vinst c fs => rfl

/-- A successfully built parameter schema carries no top-level `default`
key (its keys are `type`, `properties` and possibly `required`). -/
theorem parse_function_params_no_default (fuel : Nat) (ps : List SigParam)
    (dps : List DocParam) (descs : Bool) (sch : PyVal)
    (h : parse_function_params fuel ps dps descs = .ok sch) :
    dget sch "default" = Option.none := by
  match fuel with
  | 0 => exact Except.noConfusion h
  | fuel + 1 =>
    unfold parse_function_params at h
    simp only [bind, Except.bind] at h
    cases hm : mapME (paramFrag fuel (docstring_to_params dps) descs) ps with
    | error e =>
      rw [hm] at h
      exact Except.noConfusion h
    | ok frags =>
      rw [hm] at h
      simp only [Except.ok.injEq] at h
      rw [h.symm]
      cases he : ((ps.filter (fun (p : SigParam) => p.dflt.isNone)).map SigParam.name).isEmpty with
      | true => rfl
      | false => rfl

/-- A fragment built for a class-object annotation never carries a
`default` key of its own. -/
theorem type_to_schema_no_default (fuel : Nat) (t : PyType) (sch : PyVal)
    (hto : isTypeObj t = true) (h : type_to_schema fuel (.ty t) = .ok sch) :
    dget sch "default" = Option.none := by
  match fuel with
  | 0 => exact Except.noConfusion h
  | fuel + 1 =>
    cases t with
    | boolT =>
      match fuel with
      | 0 => exact Except.noConfusion h
      | g + 1 => cases h; rfl
    | intT =>
      match fuel with
      | 0 => exact Except.noConfusion h
      | g + 1 => cases h; rfl
    | floatT =>
      match fuel with
      | 0 => exact Except.noConfusion h
      | g + 1 => cases h; rfl
    | strT =>
      match fuel with
      | 0 => exact Except.noConfusion h
      | g + 1 => cases h; rfl
    | noneT =>
      match fuel with
      | 0 => exact Except.noConfusion h
      | g + 1 => cases h; rfl
    | classT c =>
      have h₂ : (if c.isDataclass then parse_function_params fuel c.params [] true
          else
            match typeAdapterSchema fuel (.ty (.classT c)) with
            | .ok sch₂ => .ok sch₂
            | .error _ => parse_function_params fuel c.params [] true) = .ok sch := h
      cases hdc : c.isDataclass with
      | true =>
        rw [hdc] at h₂
        simp only [if_true] at h₂
        exact parse_function_params_no_default fuel c.params [] true sch h₂
      | false =>
        rw [hdc] at h₂
        simp only [Bool.false_eq_true, if_false] at h₂
        match fuel with
        | 0 => exact Except.noConfusion h₂
        | g + 1 => exact parse_function_params_no_default (g + 1) c.params [] true sch h₂
    | anyT => exact Bool.noConfusion hto
    | ellipsisT => exact Bool.noConfusion hto
    | union alts => exact Bool.noConfusion hto
    | listOf te => exact Bool.noConfusion hto
    | tupleOf ts => exact Bool.noConfusion hto
    | dictOf kt vt => exact Bool.noConfusion hto
    | setOf te => exact Bool.noConfusion hto
    | fwd n => exact Bool.noConfusion hto

end Chat2Func
namespace Chat2Func

/-- The default-attachment step keeps the parameter's name as key. -/
theorem frag_key_aux (e : Except String Bool) (pname : String) (f₁ f₂ : PyVal)
    (y : String × PyVal)
    (h : (match e with
      | .error err => (.error err : Except String (String × PyVal))
      | .ok true => .ok (pname, f₁)
      | .ok false => .ok (pname, f₂)) = .ok y) : y.1 = pname := by
  cases e with
  | error err => exact Except.noConfusion h
  | ok b =>
    cases b with
    | true => cases h; rfl
    | false => cases h; rfl

/-- A successful fragment is keyed by its parameter's name. -/
theorem paramFrag_name (fuel : Nat) (docps : List (String × Parameter)) (descs : Bool)
    (p : SigParam) (y : String × PyVal)
    (h : paramFrag fuel docps descs p = .ok y) : y.1 = p.name := by
  match fuel with
  | 0 => exact Except.noConfusion h
  | fuel + 1 =>
    rcases p with ⟨pname, pann, pdflt⟩
    unfold paramFrag at h
    simp only [bind, Except.bind, SigParam.ann, SigParam.name, SigParam.dflt, Option.getD] at h
    show y.1 = pname
    rcases hsf : scopeFind pname docps with _ | P
    · rw [hsf] at h
      cases pdflt <;> cases pann
      all_goals try dsimp only at h
      all_goals try replace h := h.symm
      all_goals repeat split at h
      all_goals first
        | exact Except.noConfusion h
        | exact Except.noConfusion h.symm
        | (cases h; rfl)
        | (cases h.symm; rfl)
        | exact frag_key_aux _ _ _ _ _ h
        | exact frag_key_aux _ _ _ _ _ h.symm
    · rw [hsf] at h
      rcases P with ⟨Pn, Pds, Pdf, Pa⟩
      cases pdflt <;> cases pann <;> cases Pa
      all_goals try dsimp only at h
      all_goals try replace h := h.symm
      all_goals repeat split at h
      all_goals first
        | exact Except.noConfusion h
        | exact Except.noConfusion h.symm
        | (cases h; rfl)
        | (cases h.symm; rfl)
        | exact frag_key_aux _ _ _ _ _ h
        | exact frag_key_aux _ _ _ _ _ h.symm

end Chat2Func
namespace Chat2Func

/-- A successful effectful map relates inputs to outputs pointwise. -/
theorem mapME_forall₂ (g : α → Except String β) :
    ∀ (l : List α) (ys : List β), mapME g l = .ok ys →
      List.Forall₂ (fun x y => g x = .ok y) l ys := by
  intro l
  induction l with
  | nil =>
    intro ys h
    cases h
    exact List.Forall₂.nil
  | cons x rest ih =>
    intro ys h
    simp only [mapME] at h
    cases hx : g x with
    | error e => rw [hx] at h; exact Except.noConfusion h
    | ok y =>
      rw [hx] at h
      cases hrest : mapME g rest with
      | error e => rw [hrest] at h; exact Except.noConfusion h
      | ok ys₂ =>
        rw [hrest] at h
        cases h
        exact List.Forall₂.cons hx (ih ys₂ hrest)

/-- In a properties dictionary built from per-parameter fragments, a
parameter with a unique name looks up exactly its own fragment. -/
theorem frag_lookup (fuel : Nat) (docps : List (String × Parameter)) (descs : Bool) :
    ∀ (ps : List SigParam) (frags : List (String × PyVal)),
      List.Forall₂ (fun q y => paramFrag fuel docps descs q = .ok y) ps frags →
      (ps.map SigParam.name).Nodup →
      ∀ p ∈ ps, ∀ y, paramFrag fuel docps descs p = .ok y →
        dget (jdict frags) p.name = some y.2 := by
  intro ps
  induction ps with
  | nil =>
    intro frags hf hnd p hp
    exact absurd hp (List.not_mem_nil p)
  | cons q rest ih =>
    intro frags hf hnd p hp y hy
    cases hf with
    | cons hq hrest =>
      rename_i y₀ frest
      have hy₀ : y₀.1 = q.name := paramFrag_name fuel docps descs q y₀ hq
      rcases y₀ with ⟨k₀, v₀⟩
      have hk₀ : k₀ = q.name := hy₀
      have hstep : dget (jdict ((k₀, v₀) :: frest)) p.name
          = if p.name = k₀ then some v₀ else dget (jdict frest) p.name := rfl
      rcases List.mem_cons.mp hp with hpq | hprest
      · rw [hpq] at hy hstep ⊢
        rw [hy] at hq
        injection hq with h₂
        rw [hstep, hk₀, if_pos rfl, h₂]
      · have hne : p.name ≠ k₀ := by
          rw [hk₀]
          intro hcon
          have h₁ : q.name ∈ rest.map SigParam.name :=
            hcon ▸ List.mem_map.mpr ⟨p, hprest, rfl⟩
          exact (List.nodup_cons.mp hnd).1 h₁
        rw [hstep, if_neg hne]
        exact ih frest hrest (List.nodup_cons.mp hnd).2 p hprest y hy

end Chat2Func
namespace Chat2Func

/-- Attaching a documentation description never introduces a `default`
key. -/
theorem desc_attach_no_default (descs : Bool) (pdesc : Option String) (frag₀ : PyVal)
    (h0 : dget frag₀ "default" = Option.none) :
    dget (match descs, pdesc with
      | true, some desc =>
          if desc.isEmpty then frag₀ else dset frag₀ "description" (.vstr desc)
      | _, _ => frag₀) "default" = Option.none := by
  cases descs with
  | false => exact h0
  | true =>
    cases pdesc with
    | none => exact h0
    | some desc =>
      show dget (if desc.isEmpty then frag₀ else dset frag₀ "description" (.vstr desc))
        "default" = Option.none
      cases hde : desc.isEmpty with
      | true => exact h0
      | false =>
        rw [if_neg Bool.false_ne_true]
        rw [dget_dset_ne frag₀ "default" "description" (.vstr desc) (by decide)]
        exact h0

/-- A parameter whose class-object annotation mismatches its default
still produces a fragment, and that fragment omits the `default` key. -/
theorem paramFrag_mismatch (fuel : Nat) (docps : List (String × Parameter)) (descs : Bool)
    (pname : String) (t : PyType) (d : PyVal) (y : String × PyVal)
    (hto : isTypeObj t = true) (hpm : pyIsinstance d t = false)
    (h : paramFrag fuel docps descs (.mk pname (.ty t) (some d)) = .ok y) :
    dget y.2 "default" = Option.none := by
  match fuel with
  | 0 => exact Except.noConfusion h
  | fuel + 1 =>
    unfold paramFrag at h
    simp only [bind, Except.bind, SigParam.ann, SigParam.name, SigParam.dflt] at h
    cases h0 : type_to_schema fuel (.ty t) with
    | error e =>
      rw [h0] at h
      exact Except.noConfusion h
    | ok frag₀ =>
      rw [h0] at h
      have hia : isinstanceAnn d (.ty t) = .ok false := by
        show (if isTypeObj t then Except.ok (pyIsinstance d t) else .error "TypeError")
          = .ok false
        rw [hto, hpm]
        rfl
      rw [hia] at h
      have h₂ := h
      injection h₂ with h₃
      rw [h₃.symm]
      exact desc_attach_no_default descs _ frag₀
        (type_to_schema_no_default fuel t frag₀ hto h0)

end Chat2Func
namespace Chat2Func

/-- The property fragment a parameter schema holds for a given name. -/
def propOf (sch : PyVal) (nm : String) : Option PyVal :=
  match dget sch "properties" with
  | some props => dget props nm
  | Option.none => Option.none

/-- A pointwise-related member has a related image. -/
theorem forall₂_mem_left {R : α → β → Prop} :
    ∀ {l : List α} {ys : List β}, List.Forall₂ R l ys → ∀ x ∈ l, ∃ y ∈ ys, R x y := by
  intro l ys hf
  induction hf with
  | nil =>
    intro x hx
    exact absurd hx (List.not_mem_nil x)
  | cons hr _ ih =>
    intro x hx
    rcases List.mem_cons.mp hx with h₁ | h₂
    · subst h₁
      exact ⟨_, List.mem_cons_self _ _, hr⟩
    · rcases ih x h₂ with ⟨y, hy, hxy⟩
      exact ⟨y, List.mem_cons_of_mem _ hy, hxy⟩

/-- C8 (amended): a mismatched default raises nothing and is omitted only
when the annotation is a class object usable with `isinstance`; the
parameter's fragment is still emitted without a `default` key (concrete
head conjunct: `a: int = "x"` builds fine with the default dropped).
When the annotation is a subscripted generic (or unresolved string), the
`isinstance` call itself raises `TypeError` out of the build — the
counterexample. -/
theorem C8_default_mismatch :
    parse_function_params recursionLimit [.mk "a" (.ty .intT) (some (.vstr "x"))] [] true
      = .ok (jdict [("type", .vstr "object"),
          ("properties", jdict [("a", jdict [("type", .vstr "integer")])])]) ∧
    ∀ (fuel : Nat) (ps : List SigParam) (dps : List DocParam) (descs : Bool) (sch : PyVal)
      (p : SigParam) (t : PyType) (d : PyVal),
      parse_function_params fuel ps dps descs = .ok sch →
      p ∈ ps → p.ann = .ty t → isTypeObj t = true → p.dflt = some d →
      pyIsinstance d t = false → (ps.map SigParam.name).Nodup →
      ∃ frag, propOf sch p.name = some frag ∧ dget frag "default" = Option.none := by
  refine ⟨rfl, ?_⟩
  intro fuel ps dps descs sch p t d h hp hann hto hd hpm hnd
  match fuel with
  | 0 => exact Except.noConfusion h
  | fuel + 1 =>
    unfold parse_function_params at h
    simp only [bind, Except.bind] at h
    cases hm : mapME (paramFrag fuel (docstring_to_params dps) descs) ps with
    | error e =>
      rw [hm] at h
      exact Except.noConfusion h
    | ok frags =>
      rw [hm] at h
      simp only [Except.ok.injEq] at h
      have hf := mapME_forall₂ (paramFrag fuel (docstring_to_params dps) descs) ps frags hm
      rcases forall₂_mem_left hf p hp with ⟨y, _, hy⟩
      have hmk : SigParam.mk p.name (.ty t) (some d) = p := by
        rcases p with ⟨n, a, df⟩
        simp only [SigParam.ann] at hann
        simp only [SigParam.dflt] at hd
        rw [hann, hd]
        rfl
      have hdef : dget y.2 "default" = Option.none := by
        apply paramFrag_mismatch fuel (docstring_to_params dps) descs p.name t d y hto hpm
        rw [hmk]
        exact hy
      have hlook : dget (jdict frags) p.name = some y.2 :=
        frag_lookup fuel (docstring_to_params dps) descs ps frags hf hnd p hp y hy
      refine ⟨y.2, ?_, hdef⟩
      rw [h.symm]
      have hprops : ∀ nm, propOf (jdict
          (if ((ps.filter (fun (q : SigParam) => q.dflt.isNone)).map SigParam.name).isEmpty then
            [("type", PyVal.vstr "object"), ("properties", jdict frags)]
          else
            [("type", PyVal.vstr "object"), ("properties", jdict frags)] ++
              [("required", PyVal.vlist (List.map PyVal.vstr
                ((ps.filter (fun (q : SigParam) => q.dflt.isNone)).map SigParam.name)))])) nm
          = dget (jdict frags) nm := by
        intro nm
        cases ((ps.filter (fun (q : SigParam) => q.dflt.isNone)).map SigParam.name).isEmpty with
        | true => rfl
        | false => rfl
      rw [hprops p.name]
      exact hlook

/-- Witness for C8: `f(b: bool = 5)` — runtime type `int` disagrees with
the `bool` annotation; the schema still builds, the `b` fragment is
emitted, and it has no `default`. -/
theorem C8_default_mismatch_witness :
    ∃ frag, propOf (jdict [("type", .vstr "object"),
        ("properties", jdict [("b", jdict [("type", .vstr "boolean")])])]) "b" = some frag ∧
      dget frag "default" = Option.none := by
  have h := C8_default_mismatch.2 recursionLimit
    [.mk "b" (.ty .boolT) (some (.vint 5))] [] true
    (jdict [("type", .vstr "object"),
      ("properties", jdict [("b", jdict [("type", .vstr "boolean")])])])
    (.mk "b" (.ty .boolT) (some (.vint 5))) .boolT (.vint 5)
    rfl (List.mem_cons_self _ _) rfl rfl rfl rfl (by decide)
  exact h


theorem ok_ne_schemaMismatch {γ : Type} (x : γ) (m : String) :
    (Except.ok x : Except PyRaise γ) ≠ .error (.fcError (.schemaMismatch m)) :=
  fun hcon => Except.noConfusion hcon

theorem notFound_ne_schemaMismatch {γ : Type} (msg m : String) :
    (Except.error (PyRaise.fcError (FCErr.notFound msg)) : Except PyRaise γ)
      ≠ .error (.fcError (.schemaMismatch m)) := by
  intro hcon
  injection hcon with h₂
  injection h₂ with h₃
  exact FCErr.noConfusion h₃

theorem invalidJson_ne_schemaMismatch {γ : Type} (msg m : String) :
    (Except.error (PyRaise.fcError (FCErr.invalidJson msg)) : Except PyRaise γ)
      ≠ .error (.fcError (.schemaMismatch m)) := by
  intro hcon
  injection hcon with h₂
  injection h₂ with h₃
  exact FCErr.noConfusion h₃

theorem sig_ne_schemaMismatch {γ : Type} (msg m : String) :
    (Except.error (PyRaise.fcError (FCErr.signatureMismatch msg)) : Except PyRaise γ)
      ≠ .error (.fcError (.schemaMismatch m)) := by
  intro hcon
  injection hcon with h₂
  injection h₂ with h₃
  exact FCErr.noConfusion h₃

theorem inv_ne_schemaMismatch {γ : Type} (msg m : String) :
    (Except.error (PyRaise.fcError (FCErr.invocationFailed msg)) : Except PyRaise γ)
      ≠ .error (.fcError (.schemaMismatch m)) := by
  intro hcon
  injection hcon with h₂
  injection h₂ with h₃
  exact FCErr.noConfusion h₃

theorem escaped_ne_schemaMismatch {γ : Type} (msg m : String) :
    (Except.error (PyRaise.escaped msg) : Except PyRaise γ)
      ≠ .error (.fcError (.schemaMismatch m)) := by
  intro hcon
  injection hcon with h₂
  exact PyRaise.noConfusion h₂

/-- C3 counterexample: with `validate` set, looking up a plain function
whose signature annotates a parameter with an ordinary class makes the
unguarded `validate_call(function)` wrap (`src/chat2func/functions.py`
line 373, outside every `function_call_error` guard) raise at decoration
time, and the pydantic exception escapes `function_call` with its own
type, not as a `FunctionCallError`.  The wrap precedes JSON parsing, so
the same escape happens even on unparseable argument text (second
conjunct), where the claim's taxonomy demands `InvalidJson`. -/
theorem C3_counterexample :
    function_call recursionLimit "takesp" (.jsonText (some (.vdict [])))
        [("takesp", classParamFn)] true true true []
      = .error (.escaped "PydanticSchemaGenerationError") ∧
    function_call recursionLimit "takesp" (.jsonText Option.none)
        [("takesp", classParamFn)] true true true []
      = .error (.escaped "PydanticSchemaGenerationError") :=
  ⟨rfl, rfl⟩

/-- C3 (amended): the guarded stages of the pipeline surface failures as
exactly four `FunctionCallError` causes — lookup (`NotFound`), JSON
parse (`InvalidJson`), reconstruction/binding (`SignatureMismatch`), the
call itself, pydantic's call-time check included (`InvocationFailed`) —
and no input whatsoever makes this `function_call` produce the remaining
cause (`SchemaMismatch`).  But the error surface is not closed: the
`validate_call(function)` wrap sits outside every guard, so under
`validate` a wrap-time pydantic error escapes with its own exception
type, before the arguments are even parsed. -/
theorem C3_error_taxonomy (fuel : Nat) (name : String) (args : JsonInput)
    (fns : List (String × Callable)) (validate from_json return_json : Bool)
    (scope : List (String × ClassDef)) :
    (scopeFind name fns = Option.none →
      function_call fuel name args fns validate from_json return_json scope
        = .error (.fcError (.notFound ("Function " ++ name ++ " not found.")))) ∧
    (∀ f e, scopeFind name fns = some f →
      validateWrapErr fuel scope validate f = some e →
      function_call fuel name args fns validate from_json return_json scope
        = .error (.escaped e)) ∧
    (∀ f, scopeFind name fns = some f →
      validateWrapErr fuel scope validate f = Option.none → from_json = true →
      args = .jsonText Option.none →
      function_call fuel name args fns validate from_json return_json scope
        = .error (.fcError (.invalidJson "Arguments are not valid JSON."))) ∧
    (∀ f fields sargs e, scopeFind name fns = some f →
      validateWrapErr fuel scope validate f = Option.none → from_json = true →
      args = .jsonText (some (.vdict fields)) → strKeyed fields = some sargs →
      schema_to_type fuel scope f.params sargs true = .error e →
      function_call fuel name args fns validate from_json return_json scope
        = .error (.fcError (.signatureMismatch
            ("Arguments do not match function signature. " ++ e)))) ∧
    (∀ f fields sargs r e₂, scopeFind name fns = some f →
      validateWrapErr fuel scope validate f = Option.none → from_json = true →
      args = .jsonText (some (.vdict fields)) → strKeyed fields = some sargs →
      schema_to_type fuel scope f.params sargs true = .ok r →
      callCallable fuel f (validate && !f.isClass) r.2 = .error e₂ →
      function_call fuel name args fns validate from_json return_json scope
        = .error (.fcError (.invocationFailed ("Function call failed. " ++ e₂)))) ∧
    (∀ m, function_call fuel name args fns validate from_json return_json scope
      ≠ .error (.fcError (.schemaMismatch m))) := by
  refine ⟨?_, ?_, ?_, ?_, ?_, ?_⟩
  · intro h
    simp only [function_call, h]
  · intro f e h hw
    simp only [function_call, h, hw]
  · intro f h hw hfj hargs
    subst hargs
    simp only [function_call, h, hw, hfj, if_true]
  · intro f fields sargs e h hw hfj hargs hsk hst
    subst hargs
    simp only [function_call, h, hw, hfj, if_true, hsk, hst]
  · intro f fields sargs r e₂ h hw hfj hargs hsk hst hcall
    subst hargs
    simp only [function_call, h, hw, hfj, if_true, hsk, hst, hcall]
  ·
    have recon_ok : ∀ (f : Callable) (argsVal : PyVal) (m₂ : String),
        (match argsVal with
          | .vdict fields =>
              (match strKeyed fields with
               | some sargs =>
                   (match schema_to_type fuel scope f.params sargs true with
                    | .ok r => (.ok r.2 : Except PyRaise (List (String × PyVal)))
                    | .error e =>
                        .error (.fcError (.signatureMismatch
                          ("Arguments do not match function signature. " ++ e))))
               | Option.none =>
                   .error (.fcError
                     (.signatureMismatch "Arguments do not match function signature.")))
          | _ => .error (.fcError
                   (.signatureMismatch "Arguments do not match function signature.")))
          ≠ .error (.fcError (.schemaMismatch m₂)) := by
      intro f argsVal m₂
      cases argsVal with
      | vdict fields =>
        dsimp only
        cases strKeyed fields with
        | some sargs =>
          dsimp only
          cases h₃ : schema_to_type fuel scope f.params sargs true with
          | ok r =>
            dsimp only
            exact ok_ne_schemaMismatch _ _
          | error e =>
            dsimp only
            exact sig_ne_schemaMismatch _ _
        | none => (try dsimp only); exact sig_ne_schemaMismatch _ _
      | none => (try dsimp only); exact sig_ne_schemaMismatch _ _
      | vbool b => (try dsimp only); exact sig_ne_schemaMismatch _ _
      | vint n => (try dsimp only); exact sig_ne_schemaMismatch _ _
      | vfloat n d => (try dsimp only); exact sig_ne_schemaMismatch _ _
      | vstr s => (try dsimp only); exact sig_ne_schemaMismatch _ _
      | vlist xs => (try dsimp only); exact sig_ne_schemaMismatch _ _
      | vtuple xs => (try dsimp only); exact sig_ne_schemaMismatch _ _
      | vset xs => (try dsimp only); exact sig_ne_schemaMismatch _ _
      | vinst c fs => (try dsimp only); exact sig_ne_schemaMismatch _ _
    have tail : ∀ (f : Callable) (reconstructed : Except PyRaise (List (String × PyVal)))
        (m : String),
        (∀ m₂, reconstructed ≠ .error (.fcError (.schemaMismatch m₂))) →
        (match reconstructed with
          | .error e => (.error e : Except PyRaise CallResult)
          | .ok bound =>
            match callCallable fuel f (validate && !f.isClass) bound with
            | .error e => .error (.fcError (.invocationFailed ("Function call failed. " ++ e)))
            | .ok result =>
              if return_json = true then
                match json_dumps fuel result with
                | some s => .ok (.asJson s)
                | Option.none =>
                    (match json_dumps fuel (.vdict [(.vstr "result", .vstr (pyStr fuel result))]) with
                     | some s => .ok (.asJson s)
                     | Option.none => .ok (.asJson ""))
              else .ok (.asValue result))
          ≠ .error (.fcError (.schemaMismatch m)) := by
      intro f reconstructed m hr
      cases reconstructed with
      | error e =>
        intro hcon
        dsimp only at hcon
        injection hcon with h₂
        exact hr m (by rw [h₂])
      | ok bound =>
        dsimp only
        cases callCallable fuel f (validate && !f.isClass) bound with
        | error e => dsimp only; exact inv_ne_schemaMismatch _ _
        | ok result =>
          dsimp only
          cases return_json with
          | false => exact ok_ne_schemaMismatch _ _
          | true =>
            cases json_dumps fuel result with
            | some s => exact ok_ne_schemaMismatch _ _
            | none =>
              dsimp only
              cases json_dumps fuel (.vdict [(.vstr "result", .vstr (pyStr fuel result))]) with
              | some s => exact ok_ne_schemaMismatch _ _
              | none => exact ok_ne_schemaMismatch _ _
    intro m
    unfold function_call
    cases hsf : scopeFind name fns with
    | none => (try dsimp only); exact notFound_ne_schemaMismatch _ _
    | some f =>
      dsimp only
      cases hw : validateWrapErr fuel scope validate f with
      | some e =>
        (try rw [hw])
        (try dsimp only)
        exact escaped_ne_schemaMismatch _ _
      | none =>
        (try rw [hw])
        (try dsimp only)
        have parsed_ok : ∀ (parsed : Except PyRaise PyVal),
            (∀ m₂, parsed ≠ .error (.fcError (.schemaMismatch m₂))) →
            (match parsed with
              | .error e => (.error e : Except PyRaise CallResult)
              | .ok argsVal =>
                match (match argsVal with
                  | .vdict fields =>
                      (match strKeyed fields with
                       | some sargs =>
                           (match schema_to_type fuel scope f.params sargs true with
                            | .ok r => (.ok r.2 : Except PyRaise (List (String × PyVal)))
                            | .error e =>
                                .error (.fcError (.signatureMismatch
                                  ("Arguments do not match function signature. " ++ e))))
                       | Option.none =>
                           .error (.fcError
                             (.signatureMismatch "Arguments do not match function signature.")))
                  | _ => .error (.fcError
                           (.signatureMismatch "Arguments do not match function signature."))) with
                | .error e => .error e
                | .ok bound =>
                  match callCallable fuel f (validate && !f.isClass) bound with
                  | .error e => .error (.fcError (.invocationFailed ("Function call failed. " ++ e)))
                  | .ok result =>
                    if return_json = true then
                      match json_dumps fuel result with
                      | some s => .ok (.asJson s)
                      | Option.none =>
                          (match json_dumps fuel
                              (.vdict [(.vstr "result", .vstr (pyStr fuel result))]) with
                           | some s => .ok (.asJson s)
                           | Option.none => .ok (.asJson ""))
                    else .ok (.asValue result))
              ≠ .error (.fcError (.schemaMismatch m)) := by
          intro parsed hp
          cases parsed with
          | error e =>
            intro hcon
            dsimp only at hcon
            injection hcon with h₂
            exact hp m (by rw [h₂])
          | ok argsVal => exact tail f _ m (fun m₂ => recon_ok f argsVal m₂)
        apply parsed_ok
        intro m₂
        cases from_json with
        | true =>
          cases args with
          | jsonText o =>
            cases o with
            | some v => (try dsimp only); exact ok_ne_schemaMismatch _ _
            | none => (try dsimp only); exact invalidJson_ne_schemaMismatch _ _
          | pyObject v => (try dsimp only); exact invalidJson_ne_schemaMismatch _ _
        | false =>
          cases args with
          | jsonText o => (try dsimp only); exact sig_ne_schemaMismatch _ _
          | pyObject v => (try dsimp only); exact ok_ne_schemaMismatch _ _

/-- Witness for C3 on a concrete registry: each of the four guarded-stage
causes and the wrap-time escape is produced by a concrete input, and a
succeeding input is (as every input is) unable to produce
`SchemaMismatch`. -/
theorem C3_error_taxonomy_witness :
    function_call recursionLimit "nope" (.jsonText (some (.vdict [])))
        [("probe", probeFn), ("crash", crashFn)] false true true []
      = .error (.fcError (.notFound ("Function " ++ "nope" ++ " not found."))) ∧
    function_call recursionLimit "takesp" (.jsonText (some (.vdict [])))
        [("takesp", classParamFn)] true true true []
      = .error (.escaped "PydanticSchemaGenerationError") ∧
    function_call recursionLimit "probe" (.jsonText Option.none)
        [("probe", probeFn), ("crash", crashFn)] false true true []
      = .error (.fcError (.invalidJson "Arguments are not valid JSON.")) ∧
    function_call recursionLimit "probe"
        (.jsonText (some (.vdict [(.vstr "a", .vstr "zzz")])))
        [("probe", probeFn), ("crash", crashFn)] false true true []
      = .error (.fcError (.signatureMismatch
          ("Arguments do not match function signature. " ++ "ValueError"))) ∧
    function_call recursionLimit "crash" (.jsonText (some (.vdict [])))
        [("probe", probeFn), ("crash", crashFn)] false true true []
      = .error (.fcError (.invocationFailed ("Function call failed. " ++ "AssertionError"))) ∧
    function_call recursionLimit "probe"
        (.jsonText (some (.vdict [(.vstr "a", .vint 2)])))
        [("probe", probeFn), ("crash", crashFn)] false true true []
      ≠ .error (.fcError (.schemaMismatch "m")) := by
  refine ⟨?_, ?_, ?_, ?_, ?_, ?_⟩
  · exact (C3_error_taxonomy recursionLimit "nope" (.jsonText (some (.vdict [])))
      [("probe", probeFn), ("crash", crashFn)] false true true []).1 rfl
  · exact (C3_error_taxonomy recursionLimit "takesp" (.jsonText (some (.vdict [])))
      [("takesp", classParamFn)] true true true []).2.1
      classParamFn "PydanticSchemaGenerationError" rfl rfl
  · exact (C3_error_taxonomy recursionLimit "probe" (.jsonText Option.none)
      [("probe", probeFn), ("crash", crashFn)] false true true []).2.2.1 probeFn rfl rfl rfl rfl
  · exact (C3_error_taxonomy recursionLimit "probe"
      (.jsonText (some (.vdict [(.vstr "a", .vstr "zzz")])))
      [("probe", probeFn), ("crash", crashFn)] false true true []).2.2.2.1
      probeFn [(.vstr "a", .vstr "zzz")] [("a", .vstr "zzz")] "ValueError"
      rfl rfl rfl rfl rfl rfl
  · exact (C3_error_taxonomy recursionLimit "crash" (.jsonText (some (.vdict [])))
      [("probe", probeFn), ("crash", crashFn)] false true true []).2.2.2.2.1
      crashFn [] [] ([], []) "AssertionError" rfl rfl rfl rfl rfl rfl rfl
  · exact (C3_error_taxonomy recursionLimit "probe"
      (.jsonText (some (.vdict [(.vstr "a", .vint 2)])))
      [("probe", probeFn), ("crash", crashFn)] false true true []).2.2.2.2.2 "m"


theorem paramUpdate_name (fuel : Nat) (scope : List (String × ClassDef)) (strict : Bool)
    (args : List (String × PyVal)) (p : SigParam) (nv : String × PyVal)
    (h : paramUpdate fuel scope strict args p = .ok (some nv)) : nv.1 = p.name := by
  cases fuel with
  | zero => exact Except.noConfusion h
  | succ g =>
    rcases p with ⟨pname, pann, pdflt⟩
    unfold paramUpdate at h
    dsimp only [SigParam.name, SigParam.ann] at h ⊢
    cases hf : alistFind pname args with
    | none =>
      rw [hf] at h
      dsimp only at h
      injection h with h₂
      exact Option.noConfusion h₂
    | some v₀ =>
      rw [hf] at h
      dsimp only at h
      cases pann with
      | empty =>
        injection h with h₂
        exact Option.noConfusion h₂
      | raw s =>
        dsimp only at h
        cases strict with
        | true =>
          rw [if_pos rfl] at h
          exact Except.noConfusion h
        | false =>
          rw [if_neg Bool.false_ne_true] at h
          injection h with h₂
          exact Option.noConfusion h₂
      | noneV =>
        dsimp only at h
        cases strict with
        | true =>
          rw [if_pos rfl] at h
          exact Except.noConfusion h
        | false =>
          rw [if_neg Bool.false_ne_true] at h
          injection h with h₂
          exact Option.noConfusion h₂
      | ty t =>
        cases t with
        | anyT =>
          dsimp only at h
          injection h with h₂
          exact Option.noConfusion h₂
        | boolT =>
          dsimp only at h
          cases hE : instantiate_type g scope PyType.boolT v₀ with
          | ok r =>
            rw [hE] at h
            dsimp only at h
            injection h with h₂
            injection h₂ with h₃
            rw [← h₃]
          | error e =>
            rw [hE] at h
            dsimp only at h
            cases strict with
            | true =>
              rw [if_pos rfl] at h
              exact Except.noConfusion h
            | false =>
              rw [if_neg Bool.false_ne_true] at h
              injection h with h₂
              exact Option.noConfusion h₂
        | intT =>
          dsimp only at h
          cases hE : instantiate_type g scope PyType.intT v₀ with
          | ok r =>
            rw [hE] at h
            dsimp only at h
            injection h with h₂
            injection h₂ with h₃
            rw [← h₃]
          | error e =>
            rw [hE] at h
            dsimp only at h
            cases strict with
            | true =>
              rw [if_pos rfl] at h
              exact Except.noConfusion h
            | false =>
              rw [if_neg Bool.false_ne_true] at h
              injection h with h₂
              exact Option.noConfusion h₂
        | floatT =>
          dsimp only at h
          cases hE : instantiate_type g scope PyType.floatT v₀ with
          | ok r =>
            rw [hE] at h
            dsimp only at h
            injection h with h₂
            injection h₂ with h₃
            rw [← h₃]
          | error e =>
            rw [hE] at h
            dsimp only at h
            cases strict with
            | true =>
              rw [if_pos rfl] at h
              exact Except.noConfusion h
            | false =>
              rw [if_neg Bool.false_ne_true] at h
              injection h with h₂
              exact Option.noConfusion h₂
        | strT =>
          dsimp only at h
          cases hE : instantiate_type g scope PyType.strT v₀ with
          | ok r =>
            rw [hE] at h
            dsimp only at h
            injection h with h₂
            injection h₂ with h₃
            rw [← h₃]
          | error e =>
            rw [hE] at h
            dsimp only at h
            cases strict with
            | true =>
              rw [if_pos rfl] at h
              exact Except.noConfusion h
            | false =>
              rw [if_neg Bool.false_ne_true] at h
              injection h with h₂
              exact Option.noConfusion h₂
        | noneT =>
          dsimp only at h
          cases hE : instantiate_type g scope PyType.noneT v₀ with
          | ok r =>
            rw [hE] at h
            dsimp only at h
            injection h with h₂
            injection h₂ with h₃
            rw [← h₃]
          | error e =>
            rw [hE] at h
            dsimp only at h
            cases strict with
            | true =>
              rw [if_pos rfl] at h
              exact Except.noConfusion h
            | false =>
              rw [if_neg Bool.false_ne_true] at h
              injection h with h₂
              exact Option.noConfusion h₂
        | ellipsisT =>
          dsimp only at h
          cases hE : instantiate_type g scope PyType.ellipsisT v₀ with
          | ok r =>
            rw [hE] at h
            dsimp only at h
            injection h with h₂
            injection h₂ with h₃
            rw [← h₃]
          | error e =>
            rw [hE] at h
            dsimp only at h
            cases strict with
            | true =>
              rw [if_pos rfl] at h
              exact Except.noConfusion h
            | false =>
              rw [if_neg Bool.false_ne_true] at h
              injection h with h₂
              exact Option.noConfusion h₂
        | union alts =>
          dsimp only at h
          cases hE : instantiate_type g scope (PyType.union alts) v₀ with
          | ok r =>
            rw [hE] at h
            dsimp only at h
            injection h with h₂
            injection h₂ with h₃
            rw [← h₃]
          | error e =>
            rw [hE] at h
            dsimp only at h
            cases strict with
            | true =>
              rw [if_pos rfl] at h
              exact Except.noConfusion h
            | false =>
              rw [if_neg Bool.false_ne_true] at h
              injection h with h₂
              exact Option.noConfusion h₂
        | listOf te =>
          dsimp only at h
          cases hE : instantiate_type g scope (PyType.listOf te) v₀ with
          | ok r =>
            rw [hE] at h
            dsimp only at h
            injection h with h₂
            injection h₂ with h₃
            rw [← h₃]
          | error e =>
            rw [hE] at h
            dsimp only at h
            cases strict with
            | true =>
              rw [if_pos rfl] at h
              exact Except.noConfusion h
            | false =>
              rw [if_neg Bool.false_ne_true] at h
              injection h with h₂
              exact Option.noConfusion h₂
        | tupleOf targs =>
          dsimp only at h
          cases hE : instantiate_type g scope (PyType.tupleOf targs) v₀ with
          | ok r =>
            rw [hE] at h
            dsimp only at h
            injection h with h₂
            injection h₂ with h₃
            rw [← h₃]
          | error e =>
            rw [hE] at h
            dsimp only at h
            cases strict with
            | true =>
              rw [if_pos rfl] at h
              exact Except.noConfusion h
            | false =>
              rw [if_neg Bool.false_ne_true] at h
              injection h with h₂
              exact Option.noConfusion h₂
        | dictOf kt vt =>
          dsimp only at h
          cases hE : instantiate_type g scope (PyType.dictOf kt vt) v₀ with
          | ok r =>
            rw [hE] at h
            dsimp only at h
            injection h with h₂
            injection h₂ with h₃
            rw [← h₃]
          | error e =>
            rw [hE] at h
            dsimp only at h
            cases strict with
            | true =>
              rw [if_pos rfl] at h
              exact Except.noConfusion h
            | false =>
              rw [if_neg Bool.false_ne_true] at h
              injection h with h₂
              exact Option.noConfusion h₂
        | setOf te =>
          dsimp only at h
          cases hE : instantiate_type g scope (PyType.setOf te) v₀ with
          | ok r =>
            rw [hE] at h
            dsimp only at h
            injection h with h₂
            injection h₂ with h₃
            rw [← h₃]
          | error e =>
            rw [hE] at h
            dsimp only at h
            cases strict with
            | true =>
              rw [if_pos rfl] at h
              exact Except.noConfusion h
            | false =>
              rw [if_neg Bool.false_ne_true] at h
              injection h with h₂
              exact Option.noConfusion h₂
        | fwd n =>
          dsimp only at h
          cases hs : scopeFind n scope with
          | none =>
            rw [hs] at h
            dsimp only at h
            cases strict with
            | true =>
              rw [if_pos rfl] at h
              exact Except.noConfusion h
            | false =>
              rw [if_neg Bool.false_ne_true] at h
              injection h with h₂
              exact Option.noConfusion h₂
          | some c =>
            rw [hs] at h
            dsimp only at h
            cases hE : constructFromSchema g scope c v₀ strict with
            | ok r =>
              rw [hE] at h
              dsimp only at h
              injection h with h₂
              injection h₂ with h₃
              rw [← h₃]
            | error e =>
              rw [hE] at h
              dsimp only at h
              cases strict with
              | true =>
                rw [if_pos rfl] at h
                exact Except.noConfusion h
              | false =>
                rw [if_neg Bool.false_ne_true] at h
                injection h with h₂
                exact Option.noConfusion h₂
        | classT c =>
          dsimp only at h
          cases hE : constructFromSchema g scope c v₀ strict with
          | ok r =>
            rw [hE] at h
            dsimp only at h
            injection h with h₂
            injection h₂ with h₃
            rw [← h₃]
          | error e =>
            rw [hE] at h
            dsimp only at h
            cases strict with
            | true =>
              rw [if_pos rfl] at h
              exact Except.noConfusion h
            | false =>
              rw [if_neg Bool.false_ne_true] at h
              injection h with h₂
              exact Option.noConfusion h₂


theorem alistFind_alistSet_self (k : String) (v : PyVal) (l : List (String × PyVal)) :
    alistFind k (alistSet k v l) = some v := by
  induction l with
  | nil => simp [alistSet, alistFind]
  | cons kv rest ih =>
    rcases kv with ⟨k₂, w⟩
    by_cases hk : k = k₂
    · subst hk
      simp [alistSet, alistFind]
    · simp [alistSet, alistFind, hk, ih]

theorem alistFind_alistSet_ne (k k₂ : String) (v : PyVal) (l : List (String × PyVal))
    (h : k ≠ k₂) : alistFind k (alistSet k₂ v l) = alistFind k l := by
  induction l with
  | nil => simp [alistSet, alistFind, h]
  | cons kv rest ih =>
    rcases kv with ⟨k₃, w⟩
    by_cases h₂ : k₂ = k₃
    · subst h₂
      simp [alistSet, alistFind, h, ih]
    · by_cases h₃ : k = k₃ <;> simp [alistSet, alistFind, h₂, h₃, ih]

theorem foldl_upd_ne (k : String) :
    ∀ (updates : List (Option (String × PyVal))) (acc : List (String × PyVal)),
    (∀ nv : String × PyVal, some nv ∈ updates → nv.1 ≠ k) →
    alistFind k (updates.foldl applyUpd acc) = alistFind k acc := by
  intro updates
  induction updates with
  | nil =>
    intro acc _
    rfl
  | cons u rest ih =>
    intro acc hk
    cases u with
    | none =>
      rw [List.foldl_cons]
      exact ih acc (fun nv hnv => hk nv (List.mem_cons_of_mem _ hnv))
    | some nv =>
      rw [List.foldl_cons]
      have h₁ : nv.1 ≠ k := hk nv (List.mem_cons_self _ _)
      have h₂ := ih (applyUpd acc (some nv)) (fun nv₂ hnv => hk nv₂ (List.mem_cons_of_mem _ hnv))
      rw [h₂]
      dsimp only [applyUpd]
      exact alistFind_alistSet_ne k nv.1 nv.2 acc (Ne.symm h₁)

theorem foldl_upd_set (k : String) (nv : String × PyVal) (hk : nv.1 = k)
    (l₁ l₂ : List (Option (String × PyVal))) (acc : List (String × PyVal))
    (hl₂ : ∀ nv₂ : String × PyVal, some nv₂ ∈ l₂ → nv₂.1 ≠ k) :
    alistFind k ((l₁ ++ some nv :: l₂).foldl applyUpd acc) = some nv.2 := by
  rcases nv with ⟨k₀, r⟩
  dsimp only at hk
  subst hk
  rw [List.foldl_append, List.foldl_cons]
  rw [foldl_upd_ne k₀ l₂ _ hl₂]
  dsimp only [applyUpd]
  exact alistFind_alistSet_self k₀ r _

theorem forall₂_mem_right {α β : Type} {R : α → β → Prop} :
    ∀ {l : List α} {ys : List β}, List.Forall₂ R l ys → ∀ y ∈ ys, ∃ x ∈ l, R x y := by
  intro l ys hf
  induction hf with
  | nil =>
    intro y hy
    exact absurd hy (List.not_mem_nil y)
  | cons hr _ ih =>
    intro y hy
    rcases List.mem_cons.mp hy with h₁ | h₂
    · subst h₁
      exact ⟨_, List.mem_cons_self _ _, hr⟩
    · rcases ih y h₂ with ⟨x, hx, hxy⟩
      exact ⟨x, List.mem_cons_of_mem _ hx, hxy⟩

theorem forall₂_split {α β : Type} {R : α → β → Prop} :
    ∀ {l : List α} {ys : List β}, List.Forall₂ R l ys → ∀ x ∈ l,
      ∃ l₁ l₂ y ys₁ ys₂, l = l₁ ++ x :: l₂ ∧ ys = ys₁ ++ y :: ys₂ ∧ R x y ∧
        List.Forall₂ R l₂ ys₂ := by
  intro l ys hf
  induction hf with
  | nil =>
    intro x hx
    exact absurd hx (List.not_mem_nil x)
  | @cons a b l₀ ys₀ hr hf₀ ih =>
    intro x hx
    rcases List.mem_cons.mp hx with h₁ | h₂
    · subst h₁
      exact ⟨[], l₀, b, [], ys₀, rfl, rfl, hr, hf₀⟩
    · rcases ih x h₂ with ⟨l₁, l₂, y, ys₁, ys₂, he₁, he₂, hxy, hf₂⟩
      exact ⟨a :: l₁, l₂, y, b :: ys₁, ys₂, by rw [he₁]; rfl, by rw [he₂]; rfl, hxy, hf₂⟩

/-- A type expression that the per-parameter loop sends through plain
`instantiate_type`: neither `Any` (skipped), nor a `ForwardRef`, nor a
class object (both routed through the constructor branch). -/
def plainTy : PyType → Bool
  | .anyT => false
  | .fwd _ => false
  | .classT _ => false
  | _ => true

/-- C10: the `arguments` dict that `schema_to_type` hands back (the model
of the caller-supplied mapping it mutates in place) overwrites exactly
the entries the per-parameter loop reconstructed — a parameter whose
iteration produced an update reads back as the reconstructed typed
value, an iteration that produced no update (parameter absent, unusable
annotation, or a swallowed non-strict failure) leaves its entry exactly
as supplied, keys naming no parameter are untouched — and for a present
argument under a plain type annotation the iteration is exactly
`instantiate_type`, overwriting on success. -/
theorem C10_in_place_overwrite (fuel : Nat) (scope : List (String × ClassDef))
    (ps : List SigParam) (args final asg : List (String × PyVal)) (strict : Bool)
    (hnd : (ps.map SigParam.name).Nodup)
    (h : schema_to_type (fuel + 1) scope ps args strict = .ok (final, asg)) :
    (∀ p ∈ ps, ∀ nv : String × PyVal,
        paramUpdate fuel scope strict args p = .ok (some nv) →
        alistFind p.name final = some nv.2) ∧
    (∀ p ∈ ps, paramUpdate fuel scope strict args p = .ok Option.none →
        alistFind p.name final = alistFind p.name args) ∧
    (∀ k, (∀ p ∈ ps, p.name ≠ k) → alistFind k final = alistFind k args) ∧
    (∀ (p : SigParam) (v₀ : PyVal) (t : PyType),
        alistFind p.name args = some v₀ → p.ann = .ty t → plainTy t = true →
        paramUpdate (fuel + 1) scope strict args p
          = match instantiate_type fuel scope t v₀ with
            | .ok r => .ok (some (p.name, r))
            | .error e => if strict then .error e else .ok Option.none) := by
  unfold schema_to_type at h
  simp only [bind, Except.bind] at h
  cases hm : mapME (paramUpdate fuel scope strict args) ps with
  | error e =>
    rw [hm] at h
    exact Except.noConfusion h
  | ok updates =>
    rw [hm] at h
    dsimp only at h
    cases hb : bindParams ps [] (updates.foldl applyUpd args) with
    | none =>
      rw [hb] at h
      exact Except.noConfusion h
    | some asg₂ =>
      rw [hb] at h
      injection h with h₂
      have hfin : updates.foldl applyUpd args = final := congrArg Prod.fst h₂
      subst hfin
      have hf₂ := mapME_forall₂ (paramUpdate fuel scope strict args) ps updates hm
      refine ⟨?_, ?_, ?_, ?_⟩
      · intro p hp nv hnv
        rcases forall₂_split hf₂ p hp with ⟨l₁, l₂, y, ys₁, ys₂, hel, hey, hry, hf₃⟩
        have hy : y = some nv := (Except.ok.injEq _ _).mp (hry.symm.trans hnv)
        subst hy
        subst hey
        have hkey : nv.1 = p.name := paramUpdate_name _ _ _ _ _ _ hnv
        have hnames : ∀ nv₂ : String × PyVal, some nv₂ ∈ ys₂ → nv₂.1 ≠ p.name := by
          intro nv₂ hmem
          rcases forall₂_mem_right hf₃ (some nv₂) hmem with ⟨q, hq, hrq⟩
          have hqn : nv₂.1 = q.name := paramUpdate_name _ _ _ _ _ _ hrq
          rw [hqn]
          have hnd₂ : ((l₁ ++ p :: l₂).map SigParam.name).Nodup := by
            rw [← hel]
            exact hnd
          rw [List.map_append] at hnd₂
          have hnd₃ := hnd₂.of_append_right
          rw [List.map_cons] at hnd₃
          have hnot := (List.nodup_cons.mp hnd₃).1
          intro hcontra
          exact hnot (hcontra ▸ List.mem_map_of_mem SigParam.name hq)
        exact foldl_upd_set p.name nv hkey ys₁ ys₂ args hnames
      · intro p hp hnone
        refine foldl_upd_ne p.name updates args ?_
        intro nv hmem
        rcases forall₂_mem_right hf₂ (some nv) hmem with ⟨q, hq, hrq⟩
        have hqn : nv.1 = q.name := paramUpdate_name _ _ _ _ _ _ hrq
        rw [hqn]
        intro hqp
        have hqp₂ : q = p := List.inj_on_of_nodup_map hnd hq hp hqp
        rw [hqp₂] at hrq
        have h₃ := hnone.symm.trans hrq
        injection h₃ with h₄
        exact Option.noConfusion h₄
      · intro k hk
        refine foldl_upd_ne k updates args ?_
        intro nv hmem
        rcases forall₂_mem_right hf₂ (some nv) hmem with ⟨q, hq, hrq⟩
        have hqn : nv.1 = q.name := paramUpdate_name _ _ _ _ _ _ hrq
        rw [hqn]
        exact hk q hq
      · intro p v₀ t hfind hann hplain
        rcases p with ⟨pname, pann, pdflt⟩
        dsimp only [SigParam.name] at hfind ⊢
        dsimp only [SigParam.ann] at hann
        subst hann
        unfold paramUpdate
        dsimp only [SigParam.name, SigParam.ann]
        rw [hfind]
        cases t with
        | anyT => exact absurd hplain (by simp [plainTy])
        | fwd n => exact absurd hplain (by simp [plainTy])
        | classT c => exact absurd hplain (by simp [plainTy])
        | boolT => rfl
        | intT => rfl
        | floatT => rfl
        | strT => rfl
        | noneT => rfl
        | ellipsisT => rfl
        | union alts => rfl
        | listOf te => rfl
        | tupleOf targs => rfl
        | dictOf kt vt => rfl
        | setOf te => rfl

/-- Witness for C10 on a signature `(a: int, b: bool = False, c: str = "d")`
called with `{"a": "7", "b": True}`: the mapping handed back holds the
reconstructed integer `7` where the raw string `"7"` was supplied, the
defaulted absent parameter `c` and the foreign key `"zzz"` read back
exactly as in the supplied mapping, and the `a` iteration is exactly
`instantiate_type` on the raw value. -/
theorem C10_in_place_overwrite_witness :
    alistFind "a" [("a", PyVal.vint 7), ("b", PyVal.vbool true)] = some (PyVal.vint 7) ∧
    alistFind "c" [("a", PyVal.vint 7), ("b", PyVal.vbool true)]
      = alistFind "c" [("a", PyVal.vstr "7"), ("b", PyVal.vbool true)] ∧
    alistFind "zzz" [("a", PyVal.vint 7), ("b", PyVal.vbool true)]
      = alistFind "zzz" [("a", PyVal.vstr "7"), ("b", PyVal.vbool true)] ∧
    paramUpdate 100 [] true [("a", PyVal.vstr "7"), ("b", PyVal.vbool true)]
        (SigParam.mk "a" (.ty .intT) Option.none)
      = .ok (some ("a", PyVal.vint 7)) := by
  have h := C10_in_place_overwrite 99 []
    [SigParam.mk "a" (.ty .intT) Option.none,
     SigParam.mk "b" (.ty .boolT) (some (.vbool false)),
     SigParam.mk "c" (.ty .strT) (some (.vstr "d"))]
    [("a", PyVal.vstr "7"), ("b", PyVal.vbool true)]
    [("a", PyVal.vint 7), ("b", PyVal.vbool true)]
    [("a", PyVal.vint 7), ("b", PyVal.vbool true), ("c", PyVal.vstr "d")]
    true (by decide) rfl
  refine ⟨?_, ?_, ?_, ?_⟩
  · exact h.1 (SigParam.mk "a" (.ty .intT) Option.none) (List.mem_cons_self _ _)
      ("a", PyVal.vint 7) rfl
  · exact h.2.1 (SigParam.mk "c" (.ty .strT) (some (.vstr "d")))
      (List.mem_cons_of_mem _ (List.mem_cons_of_mem _ (List.mem_cons_self _ _))) rfl
  · exact h.2.2.1 "zzz" (by decide)
  · exact (h.2.2.2 (SigParam.mk "a" (.ty .intT) Option.none) (PyVal.vstr "7") PyType.intT
      rfl rfl rfl).trans rfl

end Chat2Func
